import Mathlib

/-!
# Verification of the Bonzooka map-generation / spatial-index core

Shallow embedding of `src/runtime/world/MapGenerator.js` and of
`SpatialHash.js` (whose source is appended inside `src/ROADMAP.md`).

Conventions of the embedding:
* JS 64-bit floats are modelled exactly by `ℚ`; `Math.floor` is `Int.floor`,
  `Math.hypot(dx,dy) < m` is modelled by the equivalent rational predicate
  `0 < m ∧ dx^2+dy^2 < m^2` (JS `hypot` is always nonnegative).
* JS objects with optional fields become structures with `Option` fields;
  the JS falsy-fallback chain `a || b` on numbers is `jsOr` (`0` is falsy).
* Mutable state (`grid.cells`, the zone record being extended) is threaded
  explicitly; JS `Map`/`Set` buckets are modelled extensionally (an absent
  bucket and an empty bucket behave identically through the whole API, and
  the code never leaves an empty bucket behind).
* `SeededRandom.js` is not under `src/`.  Modelled from the spec (§4.1):
  the PRNG is pure, its output a function of (seed, draw count) with
  `next() ∈ [0,1)`; we model the instance created from a seed by the stream
  `ℕ → ℚ` of its successive `next()` values, and `range`/`int`/`pick`/
  `chance` by their standard definitions over `next`.
-/

set_option maxHeartbeats 1600000
set_option maxRecDepth 4000
set_option synthInstance.maxHeartbeats 400000

/-- Modelled from the spec: `SeededRandom.js` is missing from `src/`; per
§4.1 a constructed generator is a pure stream of `next()` values in `[0,1)`
together with the number of draws made so far. -/
structure Rng where
  stream : ℕ → ℚ
  k : ℕ

/-- Modelled from the spec: `next() → [0,1)`, one draw. -/
def Rng.next (g : Rng) : ℚ × Rng :=
  (g.stream g.k, ⟨g.stream, g.k + 1⟩)

/-- Modelled from the spec: `range(a,b)` returns a uniform value in `[a,b)`
as `a + next()*(b-a)`. -/
def Rng.rangeQ (a b : ℚ) (g : Rng) : ℚ × Rng :=
  let (u, g') := g.next
  (a + u * (b - a), g')

/-- Modelled from the spec: `int(a,b)` inclusive, as
`Math.floor(a + next()*(b-a+1))`. -/
def Rng.intR (a b : ℚ) (g : Rng) : ℤ × Rng :=
  let (u, g') := g.next
  (⌊a + u * (b - a + 1)⌋, g')

/-- Modelled from the spec: `pick(list)` returns `list[int(0,len-1)]`.
Out-of-range indices (impossible for in-contract streams) fall back to `d`. -/
def Rng.pick {α : Type} (l : List α) (d : α) (g : Rng) : α × Rng :=
  let (i, g') := Rng.intR 0 ((l.length : ℚ) - 1) g
  (l.getD i.toNat d, g')

/-- Modelled from the spec: `chance(p)` is `next() < p`. -/
def Rng.chance (p : ℚ) (g : Rng) : Bool × Rng :=
  let (u, g') := g.next
  (decide (u < p), g')

/-- A stream is in-contract when every `next()` value lies in `[0,1)`. -/
def StreamOK (s : ℕ → ℚ) : Prop := ∀ n, 0 ≤ s n ∧ s n < 1

/-- `Math.hypot(dx,dy) < m`, expressed without square roots:
`hypot` is nonnegative, so the comparison holds iff `m` is positive and
`dx² + dy² < m²`. -/
def hypotLt (dx dy m : ℚ) : Prop := 0 < m ∧ dx ^ 2 + dy ^ 2 < m ^ 2

instance (dx dy m : ℚ) : Decidable (hypotLt dx dy m) := by
  unfold hypotLt; infer_instance

/-- JS numeric falsy-fallback `v || next`: an absent field or the number `0`
falls through to `next`. -/
def jsOr (v : Option ℚ) (next : ℚ) : ℚ :=
  match v with
  | none => next
  | some q => if q = 0 then next else q

-- ============================================================
-- SpatialHash.js (source appended in src/ROADMAP.md)
-- ============================================================

/-- An entity as consumed by `SpatialHash`: identity, position and the
optional `radius` / `size` / `r` fields of the fallback chain. -/
structure Entity where
  id : ℕ
  x : ℚ
  y : ℚ
  radius : Option ℚ
  size : Option ℚ
  r : Option ℚ
deriving DecidableEq, Repr

/-- Radius used by `_entityCells`: `entity.radius || entity.size || entity.r || 16`. -/
def Entity.insRadius (e : Entity) : ℚ :=
  jsOr e.radius (jsOr e.size (jsOr e.r 16))

/-- Radius used by `queryCircle`'s filter:
`ent.radius || ent.size || ent.r || 0`. -/
def Entity.qRadius (e : Entity) : ℚ :=
  jsOr e.radius (jsOr e.size (jsOr e.r 0))

/-- JS 32-bit reinterpretation: value mod 2³². -/
def toUint32 (z : ℤ) : ℕ := (z % 4294967296).toNat

/-- `(cx << 16) ^ cy` on 32-bit integers, read as an unsigned key
(bit-identical to the JS signed key, and injective w.r.t. it). -/
def cellKey (cx cy : ℤ) : ℕ :=
  (toUint32 cx * 65536 % 4294967296) ^^^ toUint32 cy

/-- Grid state: `cells` maps a key to its bucket (absent ≡ empty, see header),
`entityCells` records the key list stored per entity at insertion. -/
structure Grid where
  cellSize : ℚ
  cells : ℕ → Finset Entity
  entityCells : Entity → Option (List ℕ)

/-- `grid.invCell = 1 / cellSize`. -/
def Grid.invCell (g : Grid) : ℚ := 1 / g.cellSize

/-- `SpatialHash.create(cellSize)`. -/
def SpatialHash.create (cellSize : ℚ) : Grid :=
  ⟨cellSize, fun _ => ∅, fun _ => none⟩

/-- The key list `_entityCells` computes, as a function of the cell size:
all keys of cells overlapped by the bounding square of the entity's circle. -/
def keysOf (cs : ℚ) (e : Entity) : List ℕ :=
  let r := e.insRadius
  let inv := 1 / cs
  let minCX := ⌊(e.x - r) * inv⌋
  let maxCX := ⌊(e.x + r) * inv⌋
  let minCY := ⌊(e.y - r) * inv⌋
  let maxCY := ⌊(e.y + r) * inv⌋
  (List.range (maxCX - minCX + 1).toNat).flatMap fun i : ℕ =>
    (List.range (maxCY - minCY + 1).toNat).map fun j : ℕ =>
      cellKey (minCX + (i : ℤ)) (minCY + (j : ℤ))

/-- `SpatialHash.insert(grid, entity)`. -/
def SpatialHash.insert (g : Grid) (e : Entity) : Grid :=
  let keys := keysOf g.cellSize e
  { g with
    cells := fun k => if k ∈ keys then Insert.insert e (g.cells k) else g.cells k
    entityCells := fun e' => if e' = e then some keys else g.entityCells e' }

/-- `SpatialHash.remove(grid, entity)`: no-op when the entity has no
recorded cell list. -/
def SpatialHash.remove (g : Grid) (e : Entity) : Grid :=
  match g.entityCells e with
  | none => g
  | some keys =>
    { g with
      cells := fun k => if k ∈ keys then (g.cells k).erase e else g.cells k
      entityCells := fun e' => if e' = e then none else g.entityCells e' }

/-- `SpatialHash.update(grid, entity)` = `remove` then `insert`. -/
def SpatialHash.update (g : Grid) (e : Entity) : Grid :=
  SpatialHash.insert (SpatialHash.remove g e) e

/-- `SpatialHash.query(grid, x, y, radius)`: union of the buckets of every
cell overlapping the query's bounding box (a `Set` in JS). -/
def SpatialHash.query (g : Grid) (x y radius : ℚ) : Finset Entity :=
  let inv := g.invCell
  let minCX := ⌊(x - radius) * inv⌋
  let maxCX := ⌊(x + radius) * inv⌋
  let minCY := ⌊(y - radius) * inv⌋
  let maxCY := ⌊(y + radius) * inv⌋
  ((Finset.Icc minCX maxCX) ×ˢ (Finset.Icc minCY maxCY)).biUnion
    fun p => g.cells (cellKey p.1 p.2)

/-- `SpatialHash.queryCircle(grid, x, y, radius)`: `query` plus the exact
filter `dist2 <= (radius + er)²` with `er` resolved through `qRadius`. -/
def SpatialHash.queryCircle (g : Grid) (x y radius : ℚ) : Finset Entity :=
  (SpatialHash.query g x y radius).filter fun e =>
    (e.x - x) ^ 2 + (e.y - y) ^ 2 ≤ (radius + e.qRadius) ^ 2

/-- Insert a list of entities in order into a grid. -/
def insertAll (g : Grid) (es : List Entity) : Grid :=
  es.foldl SpatialHash.insert g

/-- The brute-force filter of the claim: center distance to `(x,y)` at most
`radius` plus the entity's resolved (`qRadius`) radius, phrased without
square roots (`dist ≤ m ↔ 0 ≤ m ∧ dist² ≤ m²`). -/
def withinDist (e : Entity) (x y radius : ℚ) : Prop :=
  0 ≤ radius + e.qRadius ∧
    (e.x - x) ^ 2 + (e.y - y) ^ 2 ≤ (radius + e.qRadius) ^ 2

instance (e : Entity) (x y radius : ℚ) : Decidable (withinDist e x y radius) := by
  unfold withinDist; infer_instance

-- ============================================================
-- MapGenerator.js - data model
-- ============================================================

/-- `Math.PI` as the IEEE double the JS engine uses, read as an exact
rational. -/
def jsPI : ℚ := 884279719003555 / 281474976710656

/-- JS string falsy-fallback `v || d` (absent or `""` falls through). -/
def jsOrS (v : Option String) (d : String) : String :=
  match v with
  | none => d
  | some s => if s = "" then d else s

/-- JS integer falsy-fallback `v || d` (`0` falls through). -/
def jsOrZ (v : ℤ) (d : ℤ) : ℤ := if v = 0 then d else v

/-- `Math.cos` / `Math.sin` / `Math.hypot` are transcendental library
functions external to the repository; they are threaded as an abstract
environment.  No claim depends on their values. -/
structure MathEnv where
  cos : ℚ → ℚ
  sin : ℚ → ℚ
  hypot : ℚ → ℚ → ℚ

/-- A 2-D point `{x, y}`. -/
structure Pt where
  x : ℚ
  y : ℚ
deriving DecidableEq, Repr

/-- One entry of `zone.enemySpawns`: base spawns, pack members and
POI-injected enemies (optional fields absent where JS omits them). -/
structure EnemySpawn where
  x : ℚ
  y : ℚ
  type : String
  patrol : String
  patrolRadius : ℤ
  active : Bool
  killed : Bool
  packId : Option String := none
  poiId : Option String := none
  ambush : Option Bool := none
  ambushDelay : Option ℚ := none
  isElite : Option Bool := none
deriving DecidableEq, Repr

/-- One entry of `zone.eliteSpawns`. -/
structure EliteSpawn where
  x : ℚ
  y : ℚ
  type : String
  active : Bool
  killed : Bool
deriving DecidableEq, Repr

/-- A POI recipe enemy before injection into `zone.enemySpawns`. -/
structure PoiEnemy where
  x : ℚ
  y : ℚ
  type : String
  patrol : String
  patrolRadius : ℤ
  ambush : Option Bool := none
  ambushDelay : Option ℚ := none
  isElite : Option Bool := none
deriving DecidableEq, Repr

/-- One entry of `zone.obstacles` (also used for resource nodes and
lockdown generators, which the code pushes into the same list). -/
structure Obstacle where
  x : ℚ
  y : ℚ
  type : String
  radius : ℚ
  destructible : Bool
  rotation : Option ℚ := none
  hp : Option ℚ := none
  damage : Option ℚ := none
  hunting : Option Bool := none
  huntSpeed : Option ℚ := none
  dotDamage : Option ℚ := none
  glow : Option String := none
  resourceType : Option String := none
  resourceMult : Option ℚ := none
  voidShardChance : Option ℚ := none
  cosmicDustChance : Option ℚ := none
  itemChance : Option ℚ := none
  isGenerator : Option Bool := none
deriving DecidableEq, Repr

/-- One entry of `zone.decorations` (the four visual layers share a list). -/
structure Decoration where
  x : ℚ
  y : ℚ
  type : String
  width : Option ℚ := none
  height : Option ℚ := none
  radius : Option ℚ := none
  color : Option String := none
  alpha : Option ℚ := none
  rotation : Option ℚ := none
  scale : Option ℚ := none
  variant : Option ℤ := none
  size : Option ℚ := none
deriving DecidableEq, Repr

/-- A starfield star (named `StarPt`: `Star` exists in Mathlib). -/
structure StarPt where
  x : ℚ
  y : ℚ
  size : ℚ
  brightness : ℚ
  twinkle : Bool
deriving DecidableEq, Repr

/-- A foreground nebula wisp. -/
structure Wisp where
  x : ℚ
  y : ℚ
  width : ℚ
  height : ℚ
  color : String
  alpha : ℚ
  rotation : ℚ
deriving DecidableEq, Repr

/-- The four parallax layers (flattened; content identical to the JS
record). -/
structure Parallax where
  bgColor : String
  bgStars : List StarPt
  bgScroll : ℚ
  midStars : List StarPt
  midScroll : ℚ
  fgObjects : List Wisp
  fgScroll : ℚ
  particlesScroll : ℚ
deriving DecidableEq, Repr

/-- A POI reward descriptor. -/
structure Reward where
  type : String
  rarity : Option String := none
  scrap : Option ℤ := none
  cells : Option ℤ := none
  value : Option ℤ := none
  voidShards : Option ℤ := none
deriving DecidableEq, Repr

/-- Wave configuration of a defense beacon. -/
structure WaveConfig where
  count : ℤ
  enemiesPerWave : ℤ
  pool : List String
deriving DecidableEq, Repr

/-- One entry of `zone.pois`. -/
structure POI where
  id : String
  type : String
  x : ℚ
  y : ℚ
  radius : ℚ
  icon : String
  label : String
  reward : Option Reward
  enemies : List PoiEnemy
  obstacles : List Obstacle
  triggered : Bool
  cleared : Bool
  collected : Bool
  hidden : Option Bool := none
  interactable : Option Bool := none
  interactPrompt : Option String := none
  waveConfig : Option WaveConfig := none
deriving DecidableEq, Repr

/-- `zone.objective` (bonus loot flattened to its two numeric fields). -/
structure Objective where
  type : String
  label : String
  icon : String
  desc : String
  progress : ℚ
  target : ℚ
  complete : Bool
  exitLocked : Bool
  bonusScrap : ℚ
  bonusCells : ℚ
  arenaCenter : Option Pt := none
  arenaRadius : Option ℚ := none
  corruptionRate : Option ℚ := none
  currentMult : Option ℚ := none
  failed : Option Bool := none
  generators : Option (List Obstacle) := none
deriving DecidableEq, Repr

/-- One entry of `zone.branchExits`. -/
structure BranchExit where
  id : String
  label : String
  icon : String
  color : String
  desc : String
  modifiers : ℤ
  lootMult : ℚ
  isVault : Option Bool := none
  x : ℚ
  y : ℚ
  radius : ℚ
deriving DecidableEq, Repr

/-- `zone.bossSpawn` (always `null` in non-boss zones). -/
structure BossSpawn where
  x : ℚ
  y : ℚ
  type : String
deriving DecidableEq, Repr

/-- The Zone value `MapGenerator.generate` returns. -/
structure Zone where
  seed : ℤ
  width : ℚ
  height : ℚ
  biome : String
  spawn : Pt
  exitPt : Pt
  enemySpawns : List EnemySpawn
  eliteSpawns : List EliteSpawn
  bossSpawn : Option BossSpawn
  obstacles : List Obstacle
  decorations : List Decoration
  parallax : Parallax
  pickups : List Unit
  portals : List Unit
  pois : List POI
  resourceNodes : List Obstacle
  objective : Option Objective
  branchExits : Option (List BranchExit)
deriving DecidableEq

/-- `cfg.width` / `cfg.height`: an array of length ≥ 2 (a range), a plain
number, or anything else (fall back to the caller's defaults). -/
inductive CfgDim where
  | absent : CfgDim
  | num : ℚ → CfgDim
  | range : ℚ → ℚ → CfgDim
deriving DecidableEq, Repr

/-- `actConfig.generation`. -/
structure GenCfg where
  enemyDensity : Option ℚ := none
  eliteDensity : Option ℚ := none
  obstacleDensity : Option ℚ := none
  width : CfgDim := .absent
  height : CfgDim := .absent
deriving DecidableEq, Repr

/-- `actConfig.parallax.nebula`. -/
structure NebulaCfg where
  enabled : Bool := false
  count : Option ℤ := none
  color : Option String := none
deriving DecidableEq, Repr

/-- `actConfig.parallax`. -/
structure ParallaxCfg where
  bgColor : Option String := none
  nebula : Option NebulaCfg := none
deriving DecidableEq, Repr

/-- `actConfig.enemies`. -/
structure EnemiesCfg where
  pool : Option (List String) := none
  elitePool : Option (List String) := none
  bossPool : Option (List String) := none
deriving DecidableEq, Repr

/-- Act / tier configuration (the fields `generate` reads). -/
structure ActConfig where
  generation : Option GenCfg := none
  biome : Option String := none
  enemies : Option EnemiesCfg := none
  parallax : Option ParallaxCfg := none
deriving DecidableEq, Repr

/-- `State.data.config.exploration` (global tuning).  A field is `some`
exactly when the JS `typeof x === 'number'` guard passes; caps are
integer-valued in all real configurations and modelled as `ℤ`. -/
structure Tune where
  enemyDensityMult : Option ℚ := none
  eliteDensityMult : Option ℚ := none
  mapScale : Option ℚ := none
  maxEnemySpawnsPerZone : Option ℤ := none
  maxEliteSpawnsPerZone : Option ℤ := none
  maxObstaclesPerZone : Option ℤ := none
  maxDecorationsPerZone : Option ℤ := none
  maxStarsBackground : Option ℤ := none
  maxStarsMidground : Option ℤ := none
  enemySpawnMinDistFromSpawn : Option ℚ := none
  enemySpawnMinDistFromExit : Option ℚ := none
  enemySpawnMinDistBetween : Option ℚ := none
deriving DecidableEq, Repr

/-- One member constraint of a pack template. -/
structure PacksMember where
  type : String
  min : Option ℚ := none
  max : Option ℚ := none
deriving DecidableEq, Repr

/-- One weighted pack template of `data/packs.json`. -/
structure PackTemplate where
  id : Option String := none
  weight : Option ℚ := none
  members : Option (List PacksMember) := none
  types : Option (List String) := none
deriving DecidableEq, Repr

/-- `State.data.packs`. -/
structure PacksData where
  templates : List PackTemplate := []
  packChance : Option ℚ := none
  packSizeMin : Option ℚ := none
  packSizeMax : Option ℚ := none
  maxPacksPerZone : Option ℚ := none
  memberSpacing : Option ℚ := none
  minDistFromSpawn : Option ℚ := none
  minDistFromExit : Option ℚ := none
deriving DecidableEq, Repr

/-- The global runtime table `State.data`, restricted to what `generate`
reads, threaded explicitly. -/
structure Globals where
  exploration : Tune := {}
  packs : Option PacksData := none
deriving DecidableEq, Repr

/-- The `options` argument of `generate`.  `depth = 0` models an absent
depth (both are falsy in `options.depth || 1`). -/
structure GenOptions where
  depth : ℤ := 0
  mods : List String := []
  difficulty : Option String := none
deriving DecidableEq, Repr

-- ============================================================
-- MapGenerator.js - generation routines
-- ============================================================

/-- The `pickRange` closure of `generate`: array → `rng.int(v[0],v[1])`,
number → the number, anything else → `rng.int(fallbackMin, fallbackMax)`. -/
def pickRange (v : CfgDim) (fmin fmax : ℚ) (g : Rng) : ℚ × Rng :=
  match v with
  | .range a b => let (n, g') := Rng.intR a b g; ((n : ℚ), g')
  | .num q => (q, g)
  | .absent => let (n, g') := Rng.intR fmin fmax g; ((n : ℚ), g')

/-- `MapGenerator.generateSpawnPoint`: spawn on one of three edges. -/
def generateSpawnPoint (w h : ℚ) (g : Rng) : Pt × Rng :=
  let (edge, g) := Rng.pick ["bottom", "left", "right"] "bottom" g
  let margin : ℚ := 100
  if edge = "bottom" then
    let (xv, g) := Rng.rangeQ margin (w - margin) g
    (⟨xv, h - margin⟩, g)
  else if edge = "left" then
    let (yv, g) := Rng.rangeQ margin (h - margin) g
    (⟨margin, yv⟩, g)
  else if edge = "right" then
    let (yv, g) := Rng.rangeQ margin (h - margin) g
    (⟨w - margin, yv⟩, g)
  else
    (⟨w / 2, h - margin⟩, g)

/-- `MapGenerator.generateExitPoint`: top if the spawn sits in the lower
half, else right if it sits in the left half, else left. -/
def generateExitPoint (spawn : Pt) (w h : ℚ) (g : Rng) : Pt × Rng :=
  let margin : ℚ := 100
  if spawn.y > h / 2 then
    let (xv, g) := Rng.rangeQ margin (w - margin) g
    (⟨xv, margin⟩, g)
  else if spawn.x < w / 2 then
    let (yv, g) := Rng.rangeQ margin (h - margin) g
    (⟨w - margin, yv⟩, g)
  else
    let (yv, g) := Rng.rangeQ margin (h - margin) g
    (⟨margin, yv⟩, g)

/-- The rejection-sampling loop of `generateEnemySpawns`
(`for (i = 0; i < count*3 && spawns.length < count; i++)`). -/
def enemySpawnGo (pool : List String) (count : ℤ) (mdSpawn mdExit mdBetween : ℚ)
    (w h : ℚ) (sp ex : Pt) : ℕ → List EnemySpawn → Rng → List EnemySpawn × Rng
  | 0, acc, g => (acc, g)
  | fuel + 1, acc, g =>
    if (acc.length : ℤ) < count then
      let (xv, g) := Rng.rangeQ 100 (w - 100) g
      let (yv, g) := Rng.rangeQ 100 (h - 100) g
      if hypotLt (xv - sp.x) (yv - sp.y) mdSpawn then
        enemySpawnGo pool count mdSpawn mdExit mdBetween w h sp ex fuel acc g
      else if hypotLt (xv - ex.x) (yv - ex.y) mdExit then
        enemySpawnGo pool count mdSpawn mdExit mdBetween w h sp ex fuel acc g
      else if acc.any (fun s => decide (hypotLt (xv - s.x) (yv - s.y) mdBetween)) then
        enemySpawnGo pool count mdSpawn mdExit mdBetween w h sp ex fuel acc g
      else
        let (ty, g) := Rng.pick pool "grunt" g
        let (pat, g) := Rng.pick ["static", "circle", "line", "wander"] "static" g
        let (pr, g) := Rng.intR 50 150 g
        enemySpawnGo pool count mdSpawn mdExit mdBetween w h sp ex fuel
          (acc ++ [{ x := xv, y := yv, type := ty, patrol := pat,
                     patrolRadius := pr, active := false, killed := false }]) g
    else (acc, g)

/-- `MapGenerator.generateEnemySpawns`. -/
def generateEnemySpawns (tune : Tune) (pool : List String) (density : ℚ)
    (w h : ℚ) (sp ex : Pt) (g : Rng) : List EnemySpawn × Rng :=
  let maxSpawns : ℤ := tune.maxEnemySpawnsPerZone.getD 120
  let countRaw : ℤ := ⌊w * h * density⌋
  let count : ℤ := max 0 (min countRaw maxSpawns)
  let mdSpawn := tune.enemySpawnMinDistFromSpawn.getD 300
  let mdExit := tune.enemySpawnMinDistFromExit.getD 200
  let mdBetween := tune.enemySpawnMinDistBetween.getD 150
  enemySpawnGo pool count mdSpawn mdExit mdBetween w h sp ex (count * 3).toNat [] g

/-- `MapGenerator.generateEliteSpawns` body loop. -/
def eliteSpawnGo (pool : List String) (w h : ℚ) :
    ℕ → List EliteSpawn → Rng → List EliteSpawn × Rng
  | 0, acc, g => (acc, g)
  | fuel + 1, acc, g =>
    let (xv, g) := Rng.rangeQ 200 (w - 200) g
    let (yv, g) := Rng.rangeQ 200 (h - 200) g
    let (ty, g) := Rng.pick pool "commander" g
    eliteSpawnGo pool w h fuel
      (acc ++ [{ x := xv, y := yv, type := ty, active := false, killed := false }]) g

/-- `MapGenerator.generateEliteSpawns`: note the `Math.max(1, …)` lower
clamp — the count is never below one. -/
def generateEliteSpawns (tune : Tune) (pool : List String) (density : ℚ)
    (w h : ℚ) (g : Rng) : List EliteSpawn × Rng :=
  let maxElites : ℤ := tune.maxEliteSpawnsPerZone.getD 8
  let countRaw : ℤ := ⌊w * h * density⌋
  let count : ℤ := max 1 (min countRaw maxElites)
  eliteSpawnGo pool w h count.toNat [] g

-- ------------------------------------------------------------
-- Pack Director (applyPackDirector)
-- ------------------------------------------------------------

/-- One Fisher–Yates swap on a list of indices. -/
def listSwap (l : List ℕ) (i j : ℕ) : List ℕ :=
  (l.set i (l.getD j 0)).set j (l.getD i 0)

/-- The shuffle loop `for (i = n-1; i > 0; i--) { j = int(0,i); swap }`.
The argument is the current `i`; a (contract-impossible) out-of-range `j`
leaves the list unswapped. -/
def shuffleGo : ℕ → List ℕ → Rng → List ℕ × Rng
  | 0, l, g => (l, g)
  | i + 1, l, g =>
    let (j, g') := Rng.intR 0 ((i : ℚ) + 1) g
    let l' := if 0 ≤ j ∧ j ≤ (i : ℤ) + 1 then listSwap l (i + 1) j.toNat else l
    shuffleGo i l' g'

/-- Weighted template walk: `r -= weight; if (r <= 0) return t`. -/
def weightedTplGo : List PackTemplate → ℚ → Option PackTemplate
  | [], _ => none
  | t :: ts, r =>
    let r' := r - t.weight.getD 1
    if r' ≤ 0 then some t else weightedTplGo ts r'

/-- The `pickTemplate` closure: weighted pick with `templates[0]` fallback. -/
def pickTemplate (ts : List PackTemplate) (g : Rng) : PackTemplate × Rng :=
  let total : ℚ := ts.foldl (fun s t => s + t.weight.getD 1) 0
  let (r, g') := Rng.rangeQ 0 total g
  ((weightedTplGo ts r).getD (ts.getD 0 {}), g')

/-- Build `memberTypes` from a template's explicit member constraints:
`cnt = int(min, max ?? min)` copies of each member type. -/
def buildMembers : List PacksMember → List String → Rng → List String × Rng
  | [], acc, g => (acc, g)
  | mm :: rest, acc, g =>
    let mi := mm.min.getD 1
    let ma := mm.max.getD mi
    let (cnt, g') := Rng.intR mi ma g
    buildMembers rest (acc ++ List.replicate cnt.toNat mm.type) g'

/-- The slot-consumption loop: walk the remaining shuffled indices, marking
unused ones used until `size` slots (anchor included) are consumed. -/
def consumeGo (size : ℤ) : List ℕ → Finset ℕ → ℤ → Finset ℕ
  | [], used, _ => used
  | j :: rest, used, consumed =>
    if consumed < size then
      if j ∈ used then consumeGo size rest used consumed
      else consumeGo size rest (Insert.insert j used) (consumed + 1)
    else used

/-- The member-creation loop: `size` members placed around the anchor. -/
def packMemberGo (env : MathEnv) (anchor : EnemySpawn) (spacing : ℚ)
    (memberTypes : Option (List String)) (tplTypes : List String)
    (pool : List String) (packId : String) :
    ℕ → ℕ → List EnemySpawn → Rng → List EnemySpawn × Rng
  | 0, _, acc, g => (acc, g)
  | fuel + 1, m, acc, g =>
    let (angle, g) := Rng.rangeQ 0 (jsPI * 2) g
    let (dist, g) := Rng.rangeQ 30 spacing g
    let px := anchor.x + env.cos angle * dist
    let py := anchor.y + env.sin angle * dist
    let (t1, g) :=
      match memberTypes with
      | some mts => (mts.getD m "", g)
      | none =>
        if tplTypes ≠ [] then Rng.pick tplTypes "" g else ("", g)
    let (ty, g) := if t1 = "" then Rng.pick pool "grunt" g else (t1, g)
    packMemberGo env anchor spacing memberTypes tplTypes pool packId fuel (m + 1)
      (acc ++ [{ x := px, y := py, type := ty, patrol := anchor.patrol,
                 patrolRadius := anchor.patrolRadius, active := false,
                 killed := false, packId := some packId }]) g

/-- The main pack loop over the shuffled index list. -/
def packGo (spawns : List EnemySpawn) (pool : List String) (spawnPt exitPt : Pt)
    (pd : PacksData) (env : MathEnv) (packChance minSize maxSize maxPacks spacing
      mdSpawn mdExit : ℚ) :
    List ℕ → Finset ℕ → List EnemySpawn → ℕ → Rng →
      Finset ℕ × List EnemySpawn × ℕ × Rng
  | [], used, out, made, g => (used, out, made, g)
  | i :: rest, used, out, made, g =>
    if ¬ ((made : ℚ) < maxPacks) then (used, out, made, g)
    else if i ∈ used then
      packGo spawns pool spawnPt exitPt pd env packChance minSize maxSize maxPacks
        spacing mdSpawn mdExit rest used out made g
    else
      match spawns.get? i with
      | none => packGo spawns pool spawnPt exitPt pd env packChance minSize maxSize
          maxPacks spacing mdSpawn mdExit rest used out made g
      | some anchor =>
        if hypotLt (anchor.x - spawnPt.x) (anchor.y - spawnPt.y) mdSpawn ∨
           hypotLt (anchor.x - exitPt.x) (anchor.y - exitPt.y) mdExit then
          packGo spawns pool spawnPt exitPt pd env packChance minSize maxSize
            maxPacks spacing mdSpawn mdExit rest used out made g
        else
          let (u, g) := Rng.rangeQ 0 1 g
          if u > packChance then
            packGo spawns pool spawnPt exitPt pd env packChance minSize maxSize
              maxPacks spacing mdSpawn mdExit rest used out made g
          else
            let (tpl, g) := pickTemplate pd.templates g
            let (memberTypes, g) :=
              match tpl.members with
              | some ms =>
                if ms ≠ [] then
                  let (built, g') := buildMembers ms [] g
                  (if built.length < 1 then none else some built, g')
                else (none, g)
              | none => (none, g)
            let (size, g) :=
              match memberTypes with
              | some mts => ((mts.length : ℤ), g)
              | none => Rng.intR minSize maxSize g
            let used := Insert.insert i used
            let used := consumeGo size rest used 1
            let packId := jsOrS tpl.id "pack"
            let (members, g) := packMemberGo env anchor spacing memberTypes
              (tpl.types.getD []) pool packId size.toNat 0 [] g
            packGo spawns pool spawnPt exitPt pd env packChance minSize maxSize
              maxPacks spacing mdSpawn mdExit rest used (out ++ members) (made + 1) g

/-- `MapGenerator.applyPackDirector`: regroup a fraction of the placed
spawns into packs; surviving singles are appended after the pack members. -/
def applyPackDirector (packs : Option PacksData) (spawns : List EnemySpawn)
    (pool : List String) (spawnPt exitPt : Pt) (env : MathEnv) (g : Rng) :
    List EnemySpawn × Rng :=
  match packs with
  | none => (spawns, g)
  | some pd =>
    if pd.templates = [] then (spawns, g)
    else
      let packChance := pd.packChance.getD 0.7
      let minSize := pd.packSizeMin.getD 3
      let maxSize := pd.packSizeMax.getD 5
      let maxPacks := pd.maxPacksPerZone.getD 6
      let spacing := pd.memberSpacing.getD 120
      let mdSpawn := pd.minDistFromSpawn.getD 350
      let mdExit := pd.minDistFromExit.getD 250
      if (spawns.length : ℚ) < minSize then (spawns, g)
      else
        let n := spawns.length
        let (idx, g) := shuffleGo (n - 1) (List.range n) g
        let (used, out, _, g) := packGo spawns pool spawnPt exitPt pd env
          packChance minSize maxSize maxPacks spacing mdSpawn mdExit idx ∅ [] 0 g
        (out ++ (List.range n).filterMap
          (fun i => if i ∈ used then none else spawns.get? i), g)

-- ------------------------------------------------------------
-- Obstacles
-- ------------------------------------------------------------

/-- Innermost corridor-wall loop (`for a … && walls.length < budget`). -/
def corridorAsteroidGo (env : MathEnv) (w h budget corridorWidth baseX baseY
    jitterX jitterY perpX perpY : ℚ) (side : ℚ) :
    ℕ → List Obstacle → Rng → List Obstacle × Rng
  | 0, acc, g => (acc, g)
  | fuel + 1, acc, g =>
    if (acc.length : ℤ) < ⌊budget⌋ then
      let (off0, g) := Rng.rangeQ 20 120 g
      let offset := corridorWidth * 0.5 + off0
      let (_spread, g) := Rng.rangeQ (-40) 40 g
      let (jx, g) := Rng.rangeQ (-20) 20 g
      let px := baseX + jitterX + perpX * offset * side + jx
      let (jy, g) := Rng.rangeQ (-20) 20 g
      let py := baseY + jitterY + perpY * offset * side + jy
      if px < 50 ∨ px > w - 50 ∨ py < 50 ∨ py > h - 50 then
        corridorAsteroidGo env w h budget corridorWidth baseX baseY jitterX jitterY
          perpX perpY side fuel acc g
      else
        let (rad, g) := Rng.intR 20 55 g
        let (rot, g) := Rng.rangeQ 0 (jsPI * 2) g
        let (hpv, g) := Rng.intR 30 60 g
        corridorAsteroidGo env w h budget corridorWidth baseX baseY jitterX jitterY
          perpX perpY side fuel
          (acc ++ [{ x := px, y := py, type := "asteroid", radius := (rad : ℚ),
                     rotation := some rot, destructible := true,
                     hp := some (hpv : ℚ) }]) g
    else (acc, g)

/-- One corridor segment (`for s = 0; s <= segments`): both sides. -/
def corridorSegmentGo (env : MathEnv) (w h budget corridorWidth sx sy ex ey : ℚ)
    (segments perCorridor : ℚ) :
    ℕ → ℚ → List Obstacle → Rng → List Obstacle × Rng
  | 0, _, acc, g => (acc, g)
  | fuel + 1, s, acc, g =>
    let t := s / segments
    let baseX := sx + (ex - sx) * t
    let baseY := sy + (ey - sy) * t
    let dx := ex - sx
    let dy := ey - sy
    let len0 := env.hypot dx dy
    let len := if len0 = 0 then 1 else len0
    let perpX := -dy / len
    let perpY := dx / len
    let (jitterX, g) := Rng.rangeQ (-80) 80 g
    let (jitterY, g) := Rng.rangeQ (-80) 80 g
    let asteroidsPerSide : ℤ := ⌊perCorridor / segments / 2⌋
    let (acc, g) := corridorAsteroidGo env w h budget corridorWidth baseX baseY
      jitterX jitterY perpX perpY (-1) asteroidsPerSide.toNat acc g
    let (acc, g) := corridorAsteroidGo env w h budget corridorWidth baseX baseY
      jitterX jitterY perpX perpY 1 asteroidsPerSide.toNat acc g
    corridorSegmentGo env w h budget corridorWidth sx sy ex ey segments perCorridor
      fuel (s + 1) acc g

/-- One corridor of `_generateCorridorWalls`. -/
def corridorOneGo (env : MathEnv) (w h budget perCorridor : ℚ)
    (acc : List Obstacle) (g : Rng) : List Obstacle × Rng :=
  let m : ℚ := 150
  let (startEdge, g) := Rng.pick ["top", "bottom", "left", "right"] "right" g
  let (sx, sy, ex, ey, g) :=
    if startEdge = "top" then
      let (sx, g) := Rng.rangeQ m (w - m) g
      let (ex, g) := Rng.rangeQ m (w - m) g
      (sx, m, ex, h - m, g)
    else if startEdge = "bottom" then
      let (sx, g) := Rng.rangeQ m (w - m) g
      let (ex, g) := Rng.rangeQ m (w - m) g
      (sx, h - m, ex, m, g)
    else if startEdge = "left" then
      let (sy, g) := Rng.rangeQ m (h - m) g
      let (ey, g) := Rng.rangeQ m (h - m) g
      (m, sy, w - m, ey, g)
    else
      let (sy, g) := Rng.rangeQ m (h - m) g
      let (ey, g) := Rng.rangeQ m (h - m) g
      (w - m, sy, m, ey, g)
  let (segments, g) := Rng.intR 8 15 g
  let (corridorWidth, g) := Rng.rangeQ 100 200 g
  corridorSegmentGo env w h budget corridorWidth sx sy ex ey (segments : ℚ)
    perCorridor (segments + 1).toNat 0 acc g

/-- Outer corridor loop. -/
def corridorAllGo (env : MathEnv) (w h budget perCorridor : ℚ) :
    ℕ → List Obstacle → Rng → List Obstacle × Rng
  | 0, acc, g => (acc, g)
  | fuel + 1, acc, g =>
    let (acc, g) := corridorOneGo env w h budget perCorridor acc g
    corridorAllGo env w h budget perCorridor fuel acc g

/-- `MapGenerator._generateCorridorWalls`. -/
def generateCorridorWalls (env : MathEnv) (w h : ℚ) (budget : ℤ) (g : Rng) :
    List Obstacle × Rng :=
  let (corridorCount, g) := Rng.intR 2 4 g
  let perCorridor : ℤ := ⌊(budget : ℚ) / (corridorCount : ℚ)⌋
  corridorAllGo env w h (budget : ℚ) (perCorridor : ℚ) corridorCount.toNat [] g

/-- Inner cluster loop (`for i … && clusterUsed < clusterBudget`);
returns the new accumulated obstacles and `clusterUsed`. -/
def clusterInnerGo (env : MathEnv) (depth : ℤ) (minefield : Bool)
    (clusterBudget : ℤ) (cx cy clusterRadius : ℚ) :
    ℕ → List Obstacle → ℤ → Rng → List Obstacle × ℤ × Rng
  | 0, acc, usedC, g => (acc, usedC, g)
  | fuel + 1, acc, usedC, g =>
    if usedC < clusterBudget then
      let (a, g) := Rng.rangeQ 0 (jsPI * 2) g
      let (d, g) := Rng.rangeQ 0 clusterRadius g
      let typePool := if minefield then ["asteroid", "debris", "mine", "mine"]
                      else ["asteroid", "debris", "asteroid"]
      let (ty, g) := Rng.pick typePool "asteroid" g
      let (rad, g) := if ty = "asteroid" then Rng.intR 20 60 g else Rng.intR 12 25 g
      let (rot, g) := Rng.rangeQ 0 (jsPI * 2) g
      let (hpv, g) := if ty = "asteroid" then
          let (v, g') := Rng.intR 25 60 g
          ((v : ℚ), g')
        else ((if ty = "mine" then (6 : ℚ) else 12), g)
      let dmg : ℚ := if ty = "mine" then 8 + ((⌊(depth : ℚ) * 0.25⌋ : ℤ) : ℚ) else 0
      clusterInnerGo env depth minefield clusterBudget cx cy clusterRadius fuel
        (acc ++ [{ x := cx + env.cos a * d, y := cy + env.sin a * d, type := ty,
                   radius := (rad : ℚ), rotation := some rot, destructible := true,
                   hp := some hpv, damage := some dmg }]) (usedC + 1) g
    else (acc, usedC, g)

/-- Outer cluster loop (`for c … && clusterUsed < clusterBudget`). -/
def clusterOuterGo (env : MathEnv) (depth : ℤ) (minefield : Bool)
    (clusterBudget : ℤ) (w h : ℚ) :
    ℕ → List Obstacle → ℤ → Rng → List Obstacle × ℤ × Rng
  | 0, acc, usedC, g => (acc, usedC, g)
  | fuel + 1, acc, usedC, g =>
    if usedC < clusterBudget then
      let (cx, g) := Rng.rangeQ 200 (w - 200) g
      let (cy, g) := Rng.rangeQ 200 (h - 200) g
      let (clusterSize, g) := Rng.intR 8 20 g
      let (clusterRadius, g) := Rng.rangeQ 80 200 g
      let (acc, usedC, g) := clusterInnerGo env depth minefield clusterBudget cx cy
        clusterRadius clusterSize.toNat acc usedC g
      clusterOuterGo env depth minefield clusterBudget w h fuel acc usedC g
    else (acc, usedC, g)

/-- Scatter-fill loop (phase 3). -/
def scatterGo (depth : ℤ) (minefield : Bool) (w h : ℚ) :
    ℕ → List Obstacle → Rng → List Obstacle × Rng
  | 0, acc, g => (acc, g)
  | fuel + 1, acc, g =>
    let typePool := if minefield then ["asteroid", "debris", "mine", "mine"]
                    else ["asteroid", "debris"]
    let (ty, g) := Rng.pick typePool "asteroid" g
    let (xv, g) := Rng.rangeQ 100 (w - 100) g
    let (yv, g) := Rng.rangeQ 100 (h - 100) g
    let (rad, g) := if ty = "asteroid" then Rng.intR 25 70 g else Rng.intR 15 30 g
    let (rot, g) := Rng.rangeQ 0 (jsPI * 2) g
    let (hpv, g) := if ty = "asteroid" then
        let (v, g') := Rng.intR 25 60 g
        ((v : ℚ), g')
      else ((if ty = "mine" then (6 : ℚ) else 12), g)
    let dmg : ℚ := if ty = "mine" then 8 + ((⌊(depth : ℚ) * 0.25⌋ : ℤ) : ℚ) else 0
    scatterGo depth minefield w h fuel
      (acc ++ [{ x := xv, y := yv, type := ty, radius := (rad : ℚ),
                 rotation := some rot, destructible := true, hp := some hpv,
                 damage := some dmg }]) g

/-- The chaos rewrite of one obstacle (`hp` ceil-scaled, mines hunt). -/
def chaosRewrite (obs : Obstacle) : Obstacle :=
  let obs :=
    match obs.hp with
    | some v => if v ≠ 0 then { obs with hp := some ((⌈v * 2.5⌉ : ℤ) : ℚ) } else obs
    | none => obs
  if obs.type = "mine" then
    { obs with hunting := some true, huntSpeed := some 40,
               damage := some ((⌈obs.damage.getD 0 * 1.5⌉ : ℤ) : ℚ) }
  else obs

/-- Chaos poison-area loop. -/
def poisonGo (depth : ℤ) (w h : ℚ) : ℕ → List Obstacle → Rng → List Obstacle × Rng
  | 0, acc, g => (acc, g)
  | fuel + 1, acc, g =>
    let (xv, g) := Rng.rangeQ 200 (w - 200) g
    let (yv, g) := Rng.rangeQ 200 (h - 200) g
    let (rad, g) := Rng.intR 80 160 g
    poisonGo depth w h fuel
      (acc ++ [{ x := xv, y := yv, type := "poison_area", radius := (rad : ℚ),
                 destructible := false,
                 dotDamage := some (3 + ((⌊(depth : ℚ) * 0.1⌋ : ℤ) : ℚ)),
                 rotation := some 0, glow := some "#44ff00" }]) g

/-- Options record passed to `generateObstacles` (the `generate` path never
sets `difficulty` in it). -/
structure ObsOptions where
  depth : ℤ := 0
  mods : List String := []
  difficulty : Option String := none
deriving DecidableEq, Repr

/-- `MapGenerator.generateObstacles`: corridor walls (~40%), clusters
(~30%), scatter fill, then the chaos rewrite when `options.difficulty`
is `'chaos'`. -/
def generateObstacles (tune : Tune) (density : ℚ) (w h : ℚ)
    (options : ObsOptions) (env : MathEnv) (g : Rng) : List Obstacle × Rng :=
  let maxObs : ℤ := tune.maxObstaclesPerZone.getD 1200
  let depth := jsOrZ options.depth 1
  let minefield := options.mods.contains "MINEFIELD"
  let countRaw : ℤ := ⌊w * h * density⌋
  let budgetTotal : ℤ := min countRaw maxObs
  let corridorBudget : ℤ := ⌊(budgetTotal : ℚ) * 0.4⌋
  let (acc, g) := generateCorridorWalls env w h corridorBudget g
  let clusterBudget : ℤ := ⌊(budgetTotal : ℚ) * 0.3⌋
  let (clusterCount, g) := Rng.intR 3 6 g
  let (acc, _, g) := clusterOuterGo env depth minefield clusterBudget w h
    clusterCount.toNat acc 0 g
  let scatterBudget : ℤ := budgetTotal - acc.length
  let (acc, g) := scatterGo depth minefield w h scatterBudget.toNat acc g
  let diff := jsOrS options.difficulty "normal"
  if diff = "chaos" then
    let acc := acc.map chaosRewrite
    let (poisonCount, g) := Rng.intR 3 5 g
    poisonGo depth w h poisonCount.toNat acc g
  else (acc, g)

-- ------------------------------------------------------------
-- Decorations & parallax
-- ------------------------------------------------------------

/-- Lookup in a per-biome table with the `table[biome] || table['space']`
fallback. -/
def biomeLookup {α : Type} (m : List (String × α)) (b : Option String) (d : α) : α :=
  match b with
  | none => d
  | some s =>
    match m.find? (fun p => p.1 == s) with
    | some p => p.2
    | none => d

/-- Dust-cloud layer colors. -/
def dustColors : List (String × List String) :=
  [("space", ["#221144", "#112244", "#110033", "#001122"]),
   ("asteroid", ["#332211", "#221100", "#1a1a00", "#112211"]),
   ("station", ["#111122", "#0a0a1a", "#1a1122", "#0a1122"])]

/-- Nebula-patch layer colors. -/
def nebulaColors : List (String × List String) :=
  [("space", ["#4400aa", "#aa0044", "#0044aa", "#006644"]),
   ("asteroid", ["#664400", "#446600", "#884400", "#226622"]),
   ("station", ["#004488", "#440088", "#006688", "#880044"])]

/-- `MapGenerator._getLandmarkTypes`. -/
def getLandmarkTypes (biome : Option String) : List String :=
  if biome = some "asteroid" then
    ["rock_formation", "ice_cluster", "ancient_marker", "dead_ship", "mining_rig"]
  else if biome = some "station" then
    ["station_hull", "antenna_array", "cargo_pod", "solar_panel", "dead_ship"]
  else
    ["gas_cloud", "dead_ship", "ancient_marker", "comet_trail", "beacon_ruins"]

/-- Small-scatter type pools. -/
def smallTypePools : List (String × List String) :=
  [("space", ["star_bright", "star_dim", "star_colored", "sparkle"]),
   ("asteroid", ["rock_small", "rock_tiny", "ice_shard", "metal_flake"]),
   ("station", ["panel_fragment", "wire_coil", "light_flicker", "spark"])]

/-- `MapGenerator._getDecoColor` palettes. -/
def decoPalettes : List (String × List String) :=
  [("star_bright", ["#ffffff", "#ffffcc", "#ccddff"]),
   ("star_dim", ["#666688", "#556677", "#445566"]),
   ("star_colored", ["#ff8866", "#66aaff", "#ffcc44", "#88ff88", "#ff66aa"]),
   ("sparkle", ["#ffffff", "#aaddff", "#ffddaa"]),
   ("rock_small", ["#667788", "#556677", "#445566"]),
   ("rock_tiny", ["#778899", "#556677", "#445566"]),
   ("ice_shard", ["#88ccff", "#aaddff", "#66bbee"]),
   ("metal_flake", ["#8899aa", "#99aabb", "#778899"]),
   ("panel_fragment", ["#556677", "#667788", "#445566"]),
   ("wire_coil", ["#887744", "#776633", "#665522"]),
   ("light_flicker", ["#ffcc00", "#ff8800", "#00aaff"]),
   ("spark", ["#ffdd44", "#ff8844", "#ffffff"])]

/-- `MapGenerator._getDecoColor`. -/
def getDecoColor (ty : String) (g : Rng) : String × Rng :=
  let palette :=
    match decoPalettes.find? (fun p => p.1 == ty) with
    | some p => p.2
    | none => ["#888888"]
  Rng.pick palette "#888888" g

/-- `type.includes('dim')`. -/
def strHasDim (s : String) : Bool := (s.splitOn "dim").length > 1

/-- Dust-cloud loop (layer 1). -/
def dustGo (biome : Option String) (w h : ℚ) :
    ℕ → List Decoration → Rng → List Decoration × Rng
  | 0, acc, g => (acc, g)
  | fuel + 1, acc, g =>
    let (xv, g) := Rng.rangeQ 0 w g
    let (yv, g) := Rng.rangeQ 0 h g
    let (wd, g) := Rng.rangeQ 400 900 g
    let (ht, g) := Rng.rangeQ 250 600 g
    let (col, g) := Rng.pick (biomeLookup dustColors biome
      ["#221144", "#112244", "#110033", "#001122"]) "#221144" g
    let (al, g) := Rng.rangeQ 0.06 0.15 g
    let (rot, g) := Rng.rangeQ 0 (jsPI * 2) g
    dustGo biome w h fuel
      (acc ++ [{ x := xv, y := yv, type := "dust_cloud", width := some wd,
                 height := some ht, color := some col, alpha := some al,
                 rotation := some rot, scale := some 1 }]) g

/-- Nebula-patch loop (layer 2). -/
def nebulaGo (biome : Option String) (w h : ℚ) :
    ℕ → List Decoration → Rng → List Decoration × Rng
  | 0, acc, g => (acc, g)
  | fuel + 1, acc, g =>
    let (xv, g) := Rng.rangeQ 100 (w - 100) g
    let (yv, g) := Rng.rangeQ 100 (h - 100) g
    let (rad, g) := Rng.rangeQ 150 400 g
    let (col, g) := Rng.pick (biomeLookup nebulaColors biome
      ["#4400aa", "#aa0044", "#0044aa", "#006644"]) "#4400aa" g
    let (al, g) := Rng.rangeQ 0.04 0.12 g
    let (rot, g) := Rng.rangeQ 0 (jsPI * 2) g
    nebulaGo biome w h fuel
      (acc ++ [{ x := xv, y := yv, type := "nebula_patch", radius := some rad,
                 color := some col, alpha := some al, rotation := some rot,
                 scale := some 1 }]) g

/-- Landmark loop (layer 3). -/
def landmarkGo (types : List String) (w h : ℚ) :
    ℕ → List Decoration → Rng → List Decoration × Rng
  | 0, acc, g => (acc, g)
  | fuel + 1, acc, g =>
    let (ty, g) := Rng.pick types "gas_cloud" g
    let (xv, g) := Rng.rangeQ 200 (w - 200) g
    let (yv, g) := Rng.rangeQ 200 (h - 200) g
    let (sc, g) := Rng.rangeQ 0.7 1.5 g
    let (rot, g) := Rng.rangeQ 0 (jsPI * 2) g
    let (al, g) := Rng.rangeQ 0.4 0.8 g
    let (va, g) := Rng.intR 0 3 g
    landmarkGo types w h fuel
      (acc ++ [{ x := xv, y := yv, type := ty, scale := some sc,
                 rotation := some rot, alpha := some al, variant := some va }]) g

/-- Small-scatter loop (layer 4). -/
def smallDecoGo (pool : List String) (w h : ℚ) :
    ℕ → List Decoration → Rng → List Decoration × Rng
  | 0, acc, g => (acc, g)
  | fuel + 1, acc, g =>
    let (ty, g) := Rng.pick pool "star_bright" g
    let (xv, g) := Rng.rangeQ 0 w g
    let (yv, g) := Rng.rangeQ 0 h g
    let (sc, g) := Rng.rangeQ 0.3 1.2 g
    let (rot, g) := Rng.rangeQ 0 (jsPI * 2) g
    let (al, g) := if strHasDim ty then Rng.rangeQ 0.15 0.4 g
                   else Rng.rangeQ 0.4 0.9 g
    let (col, g) := getDecoColor ty g
    let (sz, g) := Rng.rangeQ 1 4 g
    smallDecoGo pool w h fuel
      (acc ++ [{ x := xv, y := yv, type := ty, scale := some sc,
                 rotation := some rot, alpha := some al, color := some col,
                 size := some sz }]) g

/-- `MapGenerator.generateDecorations`: four layers; only the small-scatter
layer is limited by `maxDecorationsPerZone`. -/
def generateDecorations (tune : Tune) (biome : Option String) (w h : ℚ)
    (g : Rng) : List Decoration × Rng :=
  let maxDec : ℤ := tune.maxDecorationsPerZone.getD 3000
  let (dustCount, g) := Rng.intR 4 8 g
  let (acc, g) := dustGo biome w h dustCount.toNat [] g
  let (nebulaCount, g) := Rng.intR 2 5 g
  let (acc, g) := nebulaGo biome w h nebulaCount.toNat acc g
  let (landmarkCount, g) := Rng.intR 3 6 g
  let (acc, g) := landmarkGo (getLandmarkTypes biome) w h landmarkCount.toNat acc g
  let smallPool := biomeLookup smallTypePools biome
    ["star_bright", "star_dim", "star_colored", "sparkle"]
  let smallCount : ℤ := min (maxDec - acc.length) ⌊w * h * 0.0004⌋
  smallDecoGo smallPool w h smallCount.toNat acc g

/-- Starfield loop. -/
def starGo (w h : ℚ) : ℕ → List StarPt → Rng → List StarPt × Rng
  | 0, acc, g => (acc, g)
  | fuel + 1, acc, g =>
    let (xv, g) := Rng.rangeQ 0 w g
    let (yv, g) := Rng.rangeQ 0 h g
    let (sz, g) := Rng.rangeQ 0.5 2 g
    let (br, g) := Rng.rangeQ 0.3 1 g
    let (tw, g) := Rng.chance 0.3 g
    starGo w h fuel
      (acc ++ [{ x := xv, y := yv, size := sz, brightness := br, twinkle := tw }]) g

/-- `MapGenerator.generateStarfield` (`maxCount` is always a number at the
two call sites; `> 0` enables the cap). -/
def generateStarfield (w h density : ℚ) (maxCount : ℤ) (g : Rng) :
    List StarPt × Rng :=
  let countRaw : ℤ := ⌊w * h * density⌋
  let count : ℤ := if 0 < maxCount then min countRaw maxCount else countRaw
  starGo w h count.toNat [] g

/-- Nebula-wisp loop. -/
def wispGo (color : String) (w h : ℚ) : ℕ → List Wisp → Rng → List Wisp × Rng
  | 0, acc, g => (acc, g)
  | fuel + 1, acc, g =>
    let (xv, g) := Rng.rangeQ 0 w g
    let (yv, g) := Rng.rangeQ 0 h g
    let (wd, g) := Rng.rangeQ 200 500 g
    let (ht, g) := Rng.rangeQ 100 300 g
    let (al, g) := Rng.rangeQ 0.05 0.15 g
    let (rot, g) := Rng.rangeQ 0 (jsPI * 2) g
    wispGo color w h fuel
      (acc ++ [{ x := xv, y := yv, width := wd, height := ht, color := color,
                 alpha := al, rotation := rot }]) g

/-- `MapGenerator.generateNebulaWisps`. -/
def generateNebulaWisps (w h : ℚ) (ncfg : Option NebulaCfg) (g : Rng) :
    List Wisp × Rng :=
  match ncfg with
  | none => ([], g)
  | some nc =>
    if ¬ nc.enabled then ([], g)
    else
      let (count, g) :=
        match nc.count with
        | some c => if c = 0 then Rng.intR 3 8 g else (c, g)
        | none => Rng.intR 3 8 g
      let color := jsOrS nc.color "#4400aa"
      wispGo color w h count.toNat [] g

/-- `MapGenerator.generateParallax`. -/
def generateParallax (actConfig : ActConfig) (tune : Tune) (w h : ℚ) (g : Rng) :
    Parallax × Rng :=
  let cfg := actConfig.parallax.getD {}
  let maxBgStars : ℤ := tune.maxStarsBackground.getD 1800
  let maxMidStars : ℤ := tune.maxStarsMidground.getD 1200
  let (bgStars, g) := generateStarfield (w * 1.5) (h * 1.5) 0.0003 maxBgStars g
  let (midStars, g) := generateStarfield (w * 1.3) (h * 1.3) 0.0002 maxMidStars g
  let (wisps, g) := generateNebulaWisps w h cfg.nebula g
  ({ bgColor := jsOrS cfg.bgColor "#0a0a15", bgStars := bgStars, bgScroll := 0.1,
     midStars := midStars, midScroll := 0.3, fgObjects := wisps, fgScroll := 0.6,
     particlesScroll := 0.9 }, g)

-- ------------------------------------------------------------
-- POI system
-- ------------------------------------------------------------

/-- `MapGenerator._getPOITypesForTier`. -/
def getPOITypesForTier (depth : ℤ) : List String :=
  ["guard_post", "treasure_cache", "ore_deposit"]
    ++ (if depth ≥ 5 then ["ambush_zone", "salvage_wreck"] else [])
    ++ (if depth ≥ 10 then ["elite_den", "crystal_cavern"] else [])
    ++ (if depth ≥ 20 then ["defense_beacon", "void_rift"] else [])
    ++ (if depth ≥ 50 then ["ancient_vault"] else [])

/-- `MapGenerator._generatePathPoints`: waypoints interpolated spawn→exit
with clamped perpendicular jitter. -/
def pathPointsGo (env : MathEnv) (spawn ex : Pt) (w h : ℚ) (count : ℤ) :
    ℕ → ℕ → List Pt → Rng → List Pt × Rng
  | 0, _, acc, g => (acc, g)
  | fuel + 1, i, acc, g =>
    let margin : ℚ := 200
    let t := ((i : ℚ) + 1) / ((count : ℚ) + 1)
    let baseX := spawn.x + (ex.x - spawn.x) * t
    let baseY := spawn.y + (ex.y - spawn.y) * t
    let perpX := -(ex.y - spawn.y)
    let perpY := ex.x - spawn.x
    let pl0 := env.hypot perpX perpY
    let perpLen := if pl0 = 0 then 1 else pl0
    let maxOffset := min w h * 0.3
    let (offset, g) := Rng.rangeQ (-maxOffset) maxOffset g
    let xv := max margin (min (w - margin) (baseX + perpX / perpLen * offset))
    let yv := max margin (min (h - margin) (baseY + perpY / perpLen * offset))
    pathPointsGo env spawn ex w h count fuel (i + 1) (acc ++ [⟨xv, yv⟩]) g

/-- `MapGenerator._generatePathPoints`. -/
def generatePathPoints (env : MathEnv) (spawn ex : Pt) (w h : ℚ) (count : ℤ)
    (g : Rng) : List Pt × Rng :=
  pathPointsGo env spawn ex w h count count.toNat 0 [] g

/-- Guard-post guard ring. -/
def guardRingGo (env : MathEnv) (pool : List String) (cx cy radius : ℚ)
    (guardCount : ℕ) : ℕ → ℕ → List PoiEnemy → Rng → List PoiEnemy × Rng
  | 0, _, acc, g => (acc, g)
  | fuel + 1, i, acc, g =>
    let a := ((i : ℚ) / (guardCount : ℚ)) * (jsPI * 2)
    let (ty, g) := Rng.pick pool "grunt" g
    guardRingGo env pool cx cy radius guardCount fuel (i + 1)
      (acc ++ [{ x := cx + env.cos a * radius, y := cy + env.sin a * radius,
                 type := ty, patrol := "circle", patrolRadius := 40 }]) g

/-- Guard-post cover debris (3 pieces). -/
def guardCoverGo (env : MathEnv) (cx cy radius : ℚ) :
    ℕ → List Obstacle → Rng → List Obstacle × Rng
  | 0, acc, g => (acc, g)
  | fuel + 1, acc, g =>
    let (a, g) := Rng.rangeQ 0 (jsPI * 2) g
    let (rad, g) := Rng.intR 20 35 g
    let (rot, g) := Rng.rangeQ 0 (jsPI * 2) g
    guardCoverGo env cx cy radius fuel
      (acc ++ [{ x := cx + env.cos a * (radius * 0.5),
                 y := cy + env.sin a * (radius * 0.5), type := "debris",
                 radius := (rad : ℚ), destructible := true, hp := some 20,
                 rotation := some rot }]) g

/-- Ambush-zone enemies. -/
def ambushGo (env : MathEnv) (pool : List String) (cx cy : ℚ) :
    ℕ → List PoiEnemy → Rng → List PoiEnemy × Rng
  | 0, acc, g => (acc, g)
  | fuel + 1, acc, g =>
    let (a, g) := Rng.rangeQ 0 (jsPI * 2) g
    let (d, g) := Rng.rangeQ 80 200 g
    let (ty, g) := Rng.pick pool "grunt" g
    let (dl, g) := Rng.rangeQ 0.2 1.5 g
    ambushGo env pool cx cy fuel
      (acc ++ [{ x := cx + env.cos a * d, y := cy + env.sin a * d, type := ty,
                 patrol := "wander", patrolRadius := 60, ambush := some true,
                 ambushDelay := some dl }]) g

/-- Elite-den minions. -/
def denMinionGo (env : MathEnv) (pool : List String) (cx cy : ℚ) :
    ℕ → List PoiEnemy → Rng → List PoiEnemy × Rng
  | 0, acc, g => (acc, g)
  | fuel + 1, acc, g =>
    let (a, g) := Rng.rangeQ 0 (jsPI * 2) g
    let (ty, g) := Rng.pick pool "grunt" g
    denMinionGo env pool cx cy fuel
      (acc ++ [{ x := cx + env.cos a * 120, y := cy + env.sin a * 120, type := ty,
                 patrol := "circle", patrolRadius := 50 }]) g

/-- Elite-den arena walls. -/
def denWallGo (env : MathEnv) (cx cy : ℚ) (wallCount : ℕ) :
    ℕ → ℕ → List Obstacle → Rng → List Obstacle × Rng
  | 0, _, acc, g => (acc, g)
  | fuel + 1, i, acc, g =>
    let (aj, g) := Rng.rangeQ (-0.3) 0.3 g
    let a := ((i : ℚ) / (wallCount : ℚ)) * (jsPI * 2) + aj
    let (rad, g) := Rng.intR 35 55 g
    let (rot, g) := Rng.rangeQ 0 (jsPI * 2) g
    denWallGo env cx cy wallCount fuel (i + 1)
      (acc ++ [{ x := cx + env.cos a * 200, y := cy + env.sin a * 200,
                 type := "asteroid", radius := (rad : ℚ), destructible := true,
                 hp := some 40, rotation := some rot }]) g

/-- Ore-deposit nodes. -/
def oreNodeGo (env : MathEnv) (cx cy : ℚ) :
    ℕ → List Obstacle → Rng → List Obstacle × Rng
  | 0, acc, g => (acc, g)
  | fuel + 1, acc, g =>
    let (a, g) := Rng.rangeQ 0 (jsPI * 2) g
    let (d, g) := Rng.rangeQ 30 100 g
    let (rad, g) := Rng.intR 25 50 g
    let (hpv, g) := Rng.intR 30 60 g
    let (rot, g) := Rng.rangeQ 0 (jsPI * 2) g
    oreNodeGo env cx cy fuel
      (acc ++ [{ x := cx + env.cos a * d, y := cy + env.sin a * d,
                 type := "ore_rich", radius := (rad : ℚ), destructible := true,
                 hp := some (hpv : ℚ), rotation := some rot,
                 resourceType := some "scrap", resourceMult := some 3,
                 glow := some "#ffaa00" }]) g

/-- Crystal-cavern nodes. -/
def crystalNodeGo (env : MathEnv) (cx cy : ℚ) (depth : ℤ) (nodeCount : ℕ) :
    ℕ → ℕ → List Obstacle → Rng → List Obstacle × Rng
  | 0, _, acc, g => (acc, g)
  | fuel + 1, i, acc, g =>
    let (aj, g) := Rng.rangeQ (-0.4) 0.4 g
    let a := ((i : ℚ) / (nodeCount : ℚ)) * (jsPI * 2) + aj
    let (d, g) := Rng.rangeQ 40 90 g
    let (rad, g) := Rng.intR 20 40 g
    let (hpv, g) := Rng.intR 20 45 g
    let (rot, g) := Rng.rangeQ 0 (jsPI * 2) g
    crystalNodeGo env cx cy depth nodeCount fuel (i + 1)
      (acc ++ [{ x := cx + env.cos a * d, y := cy + env.sin a * d,
                 type := "crystal_node", radius := (rad : ℚ), destructible := true,
                 hp := some (hpv : ℚ), rotation := some rot,
                 resourceType := some "cells", resourceMult := some 4,
                 glow := some "#00aaff",
                 voidShardChance := some (if depth ≥ 30 then 0.15 else 0.05) }]) g

/-- Salvage-wreck debris: `for (i = 0; i < rng.int(2,4); i++)` draws the
bound again at every loop test; at most 4 iterations for in-contract
streams (the bound is ≤ 4), so fuel 6 is exact there. -/
def salvageDebrisGo (env : MathEnv) (cx cy : ℚ) :
    ℕ → ℕ → List Obstacle → Rng → List Obstacle × Rng
  | 0, _, acc, g => (acc, g)
  | fuel + 1, i, acc, g =>
    let (c, g) := Rng.intR 2 4 g
    if (i : ℤ) < c then
      let (a, g) := Rng.rangeQ 0 (jsPI * 2) g
      let (dxv, g) := Rng.rangeQ 60 120 g
      let (dyv, g) := Rng.rangeQ 60 120 g
      let (rad, g) := Rng.intR 15 30 g
      let (rot, g) := Rng.rangeQ 0 (jsPI * 2) g
      salvageDebrisGo env cx cy fuel (i + 1)
        (acc ++ [{ x := cx + env.cos a * dxv, y := cy + env.sin a * dyv,
                   type := "debris", radius := (rad : ℚ), destructible := true,
                   hp := some 12, rotation := some rot }]) g
    else (acc, g)

/-- Void-rift crystal nodes. -/
def voidNodeGo (env : MathEnv) (cx cy : ℚ) :
    ℕ → List Obstacle → Rng → List Obstacle × Rng
  | 0, acc, g => (acc, g)
  | fuel + 1, acc, g =>
    let (a, g) := Rng.rangeQ 0 (jsPI * 2) g
    let (d, g) := Rng.rangeQ 30 80 g
    let (rad, g) := Rng.intR 20 35 g
    let (hpv, g) := Rng.intR 40 70 g
    let (rot, g) := Rng.rangeQ 0 (jsPI * 2) g
    voidNodeGo env cx cy fuel
      (acc ++ [{ x := cx + env.cos a * d, y := cy + env.sin a * d,
                 type := "void_crystal", radius := (rad : ℚ), destructible := true,
                 hp := some (hpv : ℚ), rotation := some rot,
                 resourceType := some "voidShard", resourceMult := some 1,
                 glow := some "#aa55ff", cosmicDustChance := some 0.10 }]) g

/-- Void-rift enemies: loop with a re-drawn `rng.int(2,4)` bound (fuel 6 is
exact for in-contract streams). -/
def voidEnemyGo (env : MathEnv) (pool : List String) (cx cy : ℚ) :
    ℕ → ℕ → List PoiEnemy → Rng → List PoiEnemy × Rng
  | 0, _, acc, g => (acc, g)
  | fuel + 1, i, acc, g =>
    let (c, g) := Rng.intR 2 4 g
    if (i : ℤ) < c then
      let (a, g) := Rng.rangeQ 0 (jsPI * 2) g
      let (ty, g) := Rng.pick pool "grunt" g
      voidEnemyGo env pool cx cy fuel (i + 1)
        (acc ++ [{ x := cx + env.cos a * 180, y := cy + env.sin a * 180,
                   type := ty, patrol := "wander", patrolRadius := 100 }]) g
    else (acc, g)

/-- Ancient-vault minions: loop with a re-drawn `rng.int(4,6)` bound
(fuel 8 is exact for in-contract streams). -/
def vaultMinionGo (env : MathEnv) (pool : List String) (cx cy : ℚ) :
    ℕ → ℕ → List PoiEnemy → Rng → List PoiEnemy × Rng
  | 0, _, acc, g => (acc, g)
  | fuel + 1, i, acc, g =>
    let (c, g) := Rng.intR 4 6 g
    if (i : ℤ) < c then
      let (a, g) := Rng.rangeQ 0 (jsPI * 2) g
      let (dxv, g) := Rng.rangeQ 100 250 g
      let (dyv, g) := Rng.rangeQ 100 250 g
      let (ty, g) := Rng.pick pool "grunt" g
      vaultMinionGo env pool cx cy fuel (i + 1)
        (acc ++ [{ x := cx + env.cos a * dxv, y := cy + env.sin a * dyv,
                   type := ty, patrol := "wander", patrolRadius := 80 }]) g
    else (acc, g)

/-- Ancient-vault elite pair. -/
def vaultEliteGo (env : MathEnv) (elitePool : List String) (cx cy : ℚ) :
    ℕ → ℕ → List PoiEnemy → Rng → List PoiEnemy × Rng
  | 0, _, acc, g => (acc, g)
  | fuel + 1, i, acc, g =>
    let a := (if i = 0 then (-1 : ℚ) else 1) * jsPI * 0.3
    let (ty, g) := Rng.pick elitePool "commander" g
    vaultEliteGo env elitePool cx cy fuel (i + 1)
      (acc ++ [{ x := cx + env.cos a * 150, y := cy + env.sin a * 150, type := ty,
                 patrol := "circle", patrolRadius := 80, isElite := some true }]) g

/-- Ancient-vault heavy walls (8, evenly spaced). -/
def vaultWallGo (env : MathEnv) (cx cy : ℚ) :
    ℕ → ℕ → List Obstacle → Rng → List Obstacle × Rng
  | 0, _, acc, g => (acc, g)
  | fuel + 1, i, acc, g =>
    let a := ((i : ℚ) / 8) * (jsPI * 2)
    let (rad, g) := Rng.intR 40 60 g
    let (rot, g) := Rng.rangeQ 0 (jsPI * 2) g
    vaultWallGo env cx cy fuel (i + 1)
      (acc ++ [{ x := cx + env.cos a * 280, y := cy + env.sin a * 280,
                 type := "asteroid", radius := (rad : ℚ), destructible := true,
                 hp := some 60, rotation := some rot }]) g

/-- `MapGenerator._createPOI`: one POI recipe per archetype. -/
def createPOI (env : MathEnv) (ty : String) (cx cy : ℚ) (depth : ℤ)
    (actConfig : ActConfig) (index : ℕ) (g : Rng) : Option POI × Rng :=
  let pool := match actConfig.enemies with
              | some e => e.pool.getD ["grunt"]
              | none => ["grunt"]
  let elitePool := match actConfig.enemies with
                   | some e => e.elitePool.getD ["commander"]
                   | none => ["commander"]
  let id := s!"poi_{index}_{ty}"
  if ty = "guard_post" then
    let (guardCount, g) := Rng.intR 4 6 g
    let (radius, g) := Rng.intR 100 160 g
    let (enemies, g) := guardRingGo env pool cx cy (radius : ℚ) guardCount.toNat
      guardCount.toNat 0 [] g
    let (obstacles, g) := guardCoverGo env cx cy (radius : ℚ) 3 [] g
    let (scrap, g) := Rng.intR 15 40 g
    (some { id := id, type := ty, x := cx, y := cy, radius := (radius : ℚ) + 80,
            icon := "📦", label := "Guarded Cache",
            reward := some { type := "loot_cache"
                             rarity := some (if depth > 20 then "rare" else "uncommon")
                             scrap := some scrap },
            enemies := enemies, obstacles := obstacles,
            triggered := false, cleared := false, collected := false }, g)
  else if ty = "treasure_cache" then
    let (hasGuard, g) := Rng.chance 0.4 g
    let (enemies, g) :=
      if hasGuard then
        let (dxv, g) := Rng.rangeQ (-60) 60 g
        let (dyv, g) := Rng.rangeQ (-60) 60 g
        let (gty, g) := Rng.pick pool "grunt" g
        (([{ x := cx + dxv, y := cy + dyv, type := gty, patrol := "static",
             patrolRadius := 30 }] : List PoiEnemy), g)
      else ([], g)
    let (isEpic, g) := Rng.chance 0.15 g
    let (scrap, g) := Rng.intR 8 20 g
    (some { id := id, type := ty, x := cx, y := cy, radius := 80,
            icon := "💎", label := "Hidden Cache",
            reward := some { type := "loot_cache"
                             rarity := some (if isEpic then "epic" else "rare")
                             scrap := some scrap },
            enemies := enemies, obstacles := [],
            triggered := false, cleared := ¬hasGuard, collected := false }, g)
  else if ty = "ambush_zone" then
    let (count, g) := Rng.intR 5 8 g
    let (enemies, g) := ambushGo env pool cx cy count.toNat [] g
    let (value, g) := Rng.intR 20 50 g
    let (scrap, g) := Rng.intR 20 50 g
    (some { id := id, type := ty, x := cx, y := cy, radius := 250,
            icon := "⚠️", label := "Danger Zone",
            reward := some { type := "cells", value := some value
                             scrap := some scrap },
            enemies := enemies, obstacles := [],
            triggered := false, cleared := false, collected := false,
            hidden := some true }, g)
  else if ty = "elite_den" then
    let (ety, g) := Rng.pick elitePool "commander" g
    let elite : PoiEnemy := { x := cx, y := cy, type := ety, patrol := "circle",
                              patrolRadius := 80, isElite := some true }
    let (minionCount, g) := Rng.intR 2 3 g
    let (minions, g) := denMinionGo env pool cx cy minionCount.toNat [] g
    let (wallCount, g) := Rng.intR 4 6 g
    let (obstacles, g) := denWallGo env cx cy wallCount.toNat wallCount.toNat 0 [] g
    let (scrap, g) := Rng.intR 30 60 g
    let (cells, g) := Rng.intR 15 30 g
    (some { id := id, type := ty, x := cx, y := cy, radius := 220,
            icon := "💀", label := "Elite Den",
            reward := some { type := "loot_cache", rarity := some "epic"
                             scrap := some scrap, cells := some cells },
            enemies := elite :: minions, obstacles := obstacles,
            triggered := false, cleared := false, collected := false }, g)
  else if ty = "ore_deposit" then
    let (nodeCount, g) := Rng.intR 3 5 g
    let (obstacles, g) := oreNodeGo env cx cy nodeCount.toNat [] g
    (some { id := id, type := ty, x := cx, y := cy, radius := 150,
            icon := "⛏️", label := "Ore Deposit", reward := none,
            enemies := [], obstacles := obstacles,
            triggered := true, cleared := true, collected := false }, g)
  else if ty = "crystal_cavern" then
    let (nodeCount, g) := Rng.intR 3 4 g
    let (obstacles, g) := crystalNodeGo env cx cy depth nodeCount.toNat
      nodeCount.toNat 0 [] g
    let (hasGuard, g) := Rng.chance 0.5 g
    let (enemies, g) :=
      if hasGuard then
        let (dxv, g) := Rng.rangeQ (-80) 80 g
        let (dyv, g) := Rng.rangeQ (-80) 80 g
        let (gty, g) := Rng.pick pool "grunt" g
        (([{ x := cx + dxv, y := cy + dyv, type := gty, patrol := "circle",
             patrolRadius := 60 }] : List PoiEnemy), g)
      else ([], g)
    (some { id := id, type := ty, x := cx, y := cy, radius := 140,
            icon := "🔷", label := "Crystal Cavern", reward := none,
            enemies := enemies, obstacles := obstacles,
            triggered := true, cleared := enemies.length = 0,
            collected := false }, g)
  else if ty = "salvage_wreck" then
    let (rad, g) := Rng.intR 40 65 g
    let (hpv, g) := Rng.intR 50 90 g
    let (rot, g) := Rng.rangeQ 0 (jsPI * 2) g
    let hull : Obstacle :=
      { x := cx, y := cy, type := "salvage_wreck", radius := (rad : ℚ),
        destructible := true, hp := some (hpv : ℚ), rotation := some rot,
        resourceType := some "mixed", resourceMult := some 2,
        glow := some "#88ff44", itemChance := some 0.3 }
    let (debris, g) := salvageDebrisGo env cx cy 6 0 [] g
    (some { id := id, type := ty, x := cx, y := cy, radius := 150,
            icon := "🔧", label := "Salvage Wreck", reward := none,
            enemies := [], obstacles := hull :: debris,
            triggered := true, cleared := true, collected := false }, g)
  else if ty = "defense_beacon" then
    let (cells, g) := Rng.intR 30 60 g
    let (wcount, g) := Rng.intR 2 3 g
    let (wper, g) := Rng.intR 4 7 g
    (some { id := id, type := ty, x := cx, y := cy, radius := 120,
            icon := "📡", label := "Defense Beacon",
            reward := some { type := "loot_cache"
                             rarity := some (if depth > 40 then "legendary" else "epic")
                             cells := some cells },
            enemies := [], obstacles := [],
            interactable := some true,
            interactPrompt := some "Press E to activate beacon",
            waveConfig := some { count := wcount, enemiesPerWave := wper
                                 pool := pool },
            triggered := false, cleared := false, collected := false }, g)
  else if ty = "void_rift" then
    let (nodeCount, g) := Rng.intR 2 3 g
    let (obstacles, g) := voidNodeGo env cx cy nodeCount.toNat [] g
    let (enemies, g) := voidEnemyGo env pool cx cy 6 0 [] g
    (some { id := id, type := ty, x := cx, y := cy, radius := 200,
            icon := "🌀", label := "Void Rift", reward := none,
            enemies := enemies, obstacles := obstacles,
            triggered := false, cleared := false, collected := false }, g)
  else if ty = "ancient_vault" then
    let (elites, g) := vaultEliteGo env elitePool cx cy 2 0 [] g
    let (minions, g) := vaultMinionGo env pool cx cy 8 0 [] g
    let (walls, g) := vaultWallGo env cx cy 8 0 [] g
    let (scrap, g) := Rng.intR 50 100 g
    let (cells, g) := Rng.intR 30 60 g
    let (vs, g) := Rng.intR 1 3 g
    (some { id := id, type := ty, x := cx, y := cy, radius := 300,
            icon := "🏛️", label := "Ancient Vault",
            reward := some { type := "loot_cache", rarity := some "legendary"
                             scrap := some scrap, cells := some cells
                             voidShards := some vs },
            enemies := elites ++ minions, obstacles := walls,
            triggered := false, cleared := false, collected := false }, g)
  else (none, g)

/-- Per-waypoint POI loop of `generatePOIs`: builds the POI list and the
enemies/obstacles injected into the zone's main lists. -/
def poiLoopGo (env : MathEnv) (actConfig : ActConfig) (depth : ℤ)
    (tierPOIs : List String) :
    List Pt → ℕ → List POI → List EnemySpawn → List Obstacle → Rng →
      List POI × List EnemySpawn × List Obstacle × Rng
  | [], _, pois, adds, obsAdds, g => (pois, adds, obsAdds, g)
  | pt :: rest, i, pois, adds, obsAdds, g =>
    let (poiType, g) := Rng.pick tierPOIs "guard_post" g
    let (poi?, g) := createPOI env poiType pt.x pt.y depth actConfig i g
    match poi? with
    | none => poiLoopGo env actConfig depth tierPOIs rest (i + 1) pois adds obsAdds g
    | some poi =>
      let newAdds := poi.enemies.map fun e =>
        ({ x := e.x, y := e.y, type := e.type, patrol := e.patrol,
           patrolRadius := e.patrolRadius, active := false, killed := false,
           ambush := e.ambush, ambushDelay := e.ambushDelay, isElite := e.isElite,
           poiId := some poi.id } : EnemySpawn)
      poiLoopGo env actConfig depth tierPOIs rest (i + 1) (pois ++ [poi])
        (adds ++ newAdds) (obsAdds ++ poi.obstacles) g

/-- `MapGenerator.generatePOIs`: waypoint path from spawn to exit, one
depth-gated POI per waypoint; recipe enemies/obstacles are returned for
injection into the zone's main lists. -/
def generatePOIs (env : MathEnv) (actConfig : ActConfig) (w h : ℚ)
    (spawn ex : Pt) (optDepth : ℤ) (g : Rng) :
    List POI × List EnemySpawn × List Obstacle × Rng :=
  let depth := jsOrZ optDepth 1
  let area := w * h
  let basePOIs : ℤ := max 2 (⌊area / 15000000⌋ + 1)
  let depthBonus : ℤ := ⌊(depth : ℚ) / 15⌋
  let maxPOIs : ℤ := min 7 (basePOIs + depthBonus)
  let (poiCount, g) := Rng.intR (max 2 (maxPOIs - 1) : ℤ) (maxPOIs : ℚ) g
  let (pathPoints, g) := generatePathPoints env spawn ex w h poiCount g
  let tierPOIs := getPOITypesForTier depth
  poiLoopGo env actConfig depth tierPOIs pathPoints 0 [] [] [] g

-- ------------------------------------------------------------
-- Resource nodes, objective, branch exits
-- ------------------------------------------------------------

/-- A resource-node archetype row. -/
structure NodeType where
  type : String
  weight : ℚ
  glow : String
  resource : String
  mult : ℚ
deriving DecidableEq, Repr

/-- The 20-attempt position search of `generateResourceNodes`
(≥300 from spawn, ≥200 from exit). -/
def resourceAttemptGo (w h : ℚ) (sp ex : Pt) : ℕ → Rng → Option Pt × Rng
  | 0, g => (none, g)
  | fuel + 1, g =>
    let (xv, g') := Rng.rangeQ 150 (w - 150) g
    let (yv, g') := Rng.rangeQ 150 (h - 150) g'
    if hypotLt (xv - sp.x) (yv - sp.y) 300 then resourceAttemptGo w h sp ex fuel g'
    else if hypotLt (xv - ex.x) (yv - ex.y) 200 then resourceAttemptGo w h sp ex fuel g'
    else (some ⟨xv, yv⟩, g')

/-- The weighted node-type walk (`roll -= weight; if (roll <= 0) break`),
falling back to the first row. -/
def weightedNodeGo : List NodeType → ℚ → NodeType → NodeType
  | [], _, dflt => dflt
  | nt :: rest, roll, dflt =>
    let roll' := roll - nt.weight
    if roll' ≤ 0 then nt else weightedNodeGo rest roll' dflt

/-- Per-node loop of `generateResourceNodes`. -/
def resourceNodeGo (depth : ℤ) (nodeTypes : List NodeType) (totalWeight : ℚ)
    (w h : ℚ) (sp ex : Pt) : ℕ → List Obstacle → Rng → List Obstacle × Rng
  | 0, acc, g => (acc, g)
  | fuel + 1, acc, g =>
    let (pos?, g) := resourceAttemptGo w h sp ex 20 g
    match pos? with
    | none => resourceNodeGo depth nodeTypes totalWeight w h sp ex fuel acc g
    | some p =>
      let (roll, g) := Rng.rangeQ 0 totalWeight g
      let dflt : NodeType := { type := "ore_rich", weight := 50, glow := "#ffaa00",
                               resource := "scrap", mult := 3 }
      let picked := weightedNodeGo nodeTypes roll (nodeTypes.getD 0 dflt)
      let (rad, g) := Rng.intR 25 50 g
      let (hpv, g) := Rng.intR 25 55 g
      let (rot, g) := Rng.rangeQ 0 (jsPI * 2) g
      let node : Obstacle :=
        { x := p.x, y := p.y, type := picked.type, radius := (rad : ℚ),
          destructible := true, hp := some (hpv : ℚ), rotation := some rot,
          resourceType := some picked.resource, resourceMult := some picked.mult,
          glow := some picked.glow,
          voidShardChance :=
            if picked.type = "crystal_node" then
              some (if depth ≥ 30 then 0.12 else 0.03)
            else none,
          cosmicDustChance :=
            if picked.type = "void_crystal" then some 0.08 else none }
      resourceNodeGo depth nodeTypes totalWeight w h sp ex fuel (acc ++ [node]) g

/-- `MapGenerator.generateResourceNodes`: 3–6 weighted mineable nodes, also
appended to `zone.obstacles` by the caller. -/
def generateResourceNodes (w h : ℚ) (sp ex : Pt) (optDepth : ℤ) (g : Rng) :
    List Obstacle × Rng :=
  let depth := jsOrZ optDepth 1
  let (count, g) := Rng.intR 3 ((min 6 (3 + ⌊(depth : ℚ) / 15⌋) : ℤ) : ℚ) g
  let nodeTypes : List NodeType :=
    [{ type := "ore_rich", weight := 50, glow := "#ffaa00", resource := "scrap",
       mult := 3 },
     { type := "crystal_node", weight := 25, glow := "#00aaff",
       resource := "cells", mult := 3 }]
    ++ (if depth ≥ 30 then
          [{ type := "void_crystal", weight := 10, glow := "#aa55ff",
             resource := "voidShard", mult := 1 }]
        else [])
  let totalWeight := nodeTypes.foldl (fun s n => s + n.weight) 0
  resourceNodeGo depth nodeTypes totalWeight w h sp ex count.toNat [] g

/-- The objective weight table (`survival`/`corruption` zeroed below
depth 5). -/
def objectiveWeights (depth : ℤ) : List (String × ℚ) :=
  [("exterminate", 30), ("survival", if depth < 5 then 0 else 20),
   ("timetrial", 15), ("corruption", if depth < 5 then 0 else 15),
   ("lockdown", 20)]

/-- Weighted objective walk (`roll -= weight; if (roll <= 0) break`),
falling back to the first row. -/
def weightedStrGo : List (String × ℚ) → ℚ → String → String
  | [], _, dflt => dflt
  | o :: rest, roll, dflt =>
    let roll' := roll - o.2
    if roll' ≤ 0 then o.1 else weightedStrGo rest roll' dflt

/-- The three lockdown generators. -/
def lockdownGenGo (env : MathEnv) (w h : ℚ) (depth : ℤ) :
    ℕ → ℕ → List Obstacle → Rng → List Obstacle × Rng
  | 0, _, acc, g => (acc, g)
  | fuel + 1, i, acc, g =>
    let (aj, g) := Rng.rangeQ (-0.4) 0.4 g
    let a := ((i : ℚ) / 3) * (jsPI * 2) + aj
    let dist := min w h * 0.3
    lockdownGenGo env w h depth fuel (i + 1)
      (acc ++ [{ x := w / 2 + env.cos a * dist, y := h / 2 + env.sin a * dist,
                 type := "generator", radius := 30, destructible := true,
                 hp := some (50 + (depth : ℚ) * 5), rotation := some 0,
                 glow := some "#ff4444", isGenerator := some true }]) g

/-- `MapGenerator.generateObjective`: none for the first two depths, then a
weighted choice; lockdown returns its generator obstacles for injection. -/
def generateObjective (env : MathEnv) (enemyCount eliteCount : ℕ) (w h : ℚ)
    (depth : ℤ) (g : Rng) : Option Objective × List Obstacle × Rng :=
  if depth ≤ 2 then (none, [], g)
  else
    let objs := objectiveWeights depth
    let totalW := objs.foldl (fun s o => s + o.2) 0
    let (roll, g) := Rng.rangeQ 0 totalW g
    let picked := weightedStrGo objs roll "exterminate"
    if picked = "exterminate" then
      let total := enemyCount + eliteCount
      let target : ℤ := max 5 ⌊(total : ℚ) * 0.8⌋
      (some { type := "exterminate", label := "EXTERMINATE", icon := "💀",
              desc := s!"Kill {target} enemies to unlock the exit",
              progress := 0, target := (target : ℚ), complete := false,
              exitLocked := true, bonusScrap := 30 + (depth : ℚ) * 5,
              bonusCells := 10 + (depth : ℚ) * 2 }, [], g)
    else if picked = "survival" then
      let duration : ℤ := 30 + min depth 50
      (some { type := "survival", label := "SURVIVE", icon := "⏱️",
              desc := s!"Survive {duration}s in the arena zone",
              progress := 0, target := (duration : ℚ), complete := false,
              exitLocked := true, bonusScrap := 40 + (depth : ℚ) * 6,
              bonusCells := 15 + (depth : ℚ) * 3,
              arenaCenter := some ⟨w / 2, h / 2⟩, arenaRadius := some 400 }, [], g)
    else if picked = "timetrial" then
      let timeLimit : ℤ := 20 + ⌊w / 100⌋
      (some { type := "timetrial", label := "TIME TRIAL", icon := "⚡",
              desc := s!"Reach exit within {timeLimit}s for bonus loot",
              progress := 0, target := (timeLimit : ℚ), complete := false,
              exitLocked := false, bonusScrap := 60 + (depth : ℚ) * 8,
              bonusCells := 20 + (depth : ℚ) * 4, failed := some false }, [], g)
    else if picked = "corruption" then
      (some { type := "corruption", label := "CORRUPTION", icon := "☠️",
              desc := "Zone grows deadlier over time. Exit when you dare.",
              progress := 0, target := 100, complete := false,
              exitLocked := false,
              corruptionRate := some (1.0 + (depth : ℚ) * 0.02),
              currentMult := some 1.0, bonusScrap := 20 + (depth : ℚ) * 3,
              bonusCells := 5 + (depth : ℚ) }, [], g)
    else if picked = "lockdown" then
      let genCount : ℤ := 3
      let (generators, g) := lockdownGenGo env w h depth 3 0 [] g
      (some { type := "lockdown", label := "LOCKDOWN", icon := "🔒",
              desc := s!"Destroy {genCount} generators to unlock the exit",
              progress := 0, target := (genCount : ℚ), complete := false,
              exitLocked := true, generators := some generators,
              bonusScrap := 50 + (depth : ℚ) * 7,
              bonusCells := 15 + (depth : ℚ) * 3 }, generators, g)
    else (none, [], g)

/-- The three branch-route templates (positions filled in per branch). -/
def branchTypes : List BranchExit :=
  [{ id := "safe", label := "SAFE ROUTE", icon := "🟢", color := "#00ff88",
     desc := "Standard zone", modifiers := 0, lootMult := 1.0,
     x := 0, y := 0, radius := 0 },
   { id := "risky", label := "RISKY ROUTE", icon := "🟡", color := "#ffcc00",
     desc := "+1 modifier, +50% loot", modifiers := 1, lootMult := 1.5,
     x := 0, y := 0, radius := 0 },
   { id := "vault", label := "VAULT", icon := "🔴", color := "#ff4444",
     desc := "Dead end, guaranteed rare+", modifiers := 2, lootMult := 2.0,
     isVault := some true, x := 0, y := 0, radius := 0 }]

/-- `MapGenerator.generateBranchExits`: 2–3 route portals spread around the
exit (the vault may be dropped below depth 10). -/
def generateBranchExits (exitPt : Pt) (depth : ℤ) (g : Rng) :
    List BranchExit × Rng :=
  let (types, g) :=
    if depth < 10 then
      let (c, g') := Rng.chance 0.4 g
      (if c then branchTypes.take 2 else branchTypes, g')
    else (branchTypes, g)
  let spacing : ℚ := 120
  let totalW : ℚ := ((types.length : ℚ) - 1) * spacing
  (types.mapIdx (fun i t =>
    let offsetX : ℚ := -totalW / 2 + (i : ℚ) * spacing
    { t with x := exitPt.x + offsetX, y := exitPt.y + |offsetX| * 0.3,
             radius := 35 }), g)

-- ------------------------------------------------------------
-- generate
-- ------------------------------------------------------------

/-- `MapGenerator.generate`: the full zone generator, with the global
`State.data` table (`globals`), the options record and the PRNG stream as
explicit inputs.  Draw order mirrors the JS object-literal evaluation:
spawn point, parallax, exit, enemy spawns, pack director, elites,
obstacles, decorations, POIs, resource nodes, objective, branch exits. -/
def MapGenerator.generate (actConfig : ActConfig) (zoneSeed : ℤ)
    (globals : Globals) (options : GenOptions) (env : MathEnv)
    (stream : ℕ → ℚ) : Zone :=
  let g : Rng := ⟨stream, 0⟩
  let cfg := actConfig.generation.getD {}
  let depth := jsOrZ options.depth 1
  let mods := options.mods
  let depthEnemyMult : ℚ := 1 + min ((depth : ℚ) * 0.012) 1.6
  let depthEliteMult : ℚ := 1 + min ((depth : ℚ) * 0.010) 1.2
  let depthObsMult : ℚ := 1 + min ((depth : ℚ) * 0.008) 1.0
  let enemyDensity := jsOr cfg.enemyDensity 0.0005 * depthEnemyMult
  let eliteDensity := jsOr cfg.eliteDensity 0.00008 * depthEliteMult
  let obstacleDensity := jsOr cfg.obstacleDensity 0.0002 * depthObsMult
  let enemyDensity := if mods.contains "BULLET_HELL" then enemyDensity * 1.35
                      else enemyDensity
  let eliteDensity := if mods.contains "ELITE_PACKS" then eliteDensity * 1.55
                      else eliteDensity
  let enemyDensity := if mods.contains "FAST_ENEMIES" then enemyDensity * 1.10
                      else enemyDensity
  let obstacleDensity := if mods.contains "DENSE_OBSTACLES" then
                           obstacleDensity * 1.35
                         else obstacleDensity
  let obstacleDensity := if mods.contains "MINEFIELD" then obstacleDensity * 1.15
                         else obstacleDensity
  let crampedMult : ℚ := if mods.contains "CRAMPED_ZONE" then 0.85 else 1.0
  let diff := jsOrS options.difficulty "normal"
  let eliteDensity := if diff = "risk" then eliteDensity * 3.0
                      else if diff = "chaos" then eliteDensity * 5.0
                      else eliteDensity
  let enemyDensity := if diff = "chaos" then enemyDensity * 1.3 else enemyDensity
  let obstacleDensity := if diff = "chaos" then obstacleDensity * 1.4
                         else obstacleDensity
  let tune := globals.exploration
  let enemyDensity := match tune.enemyDensityMult with
                      | some m => enemyDensity * m
                      | none => enemyDensity
  let eliteDensity := match tune.eliteDensityMult with
                      | some m => eliteDensity * m
                      | none => eliteDensity
  let (width0, g) := pickRange cfg.width 1500 3000 g
  let (height0, g) := pickRange cfg.height 1500 3000 g
  let (width1, height1) :=
    if crampedMult ≠ 1.0 then
      (((⌊width0 * crampedMult⌋ : ℤ) : ℚ), ((⌊height0 * crampedMult⌋ : ℤ) : ℚ))
    else (width0, height0)
  let mapScale : ℚ := match tune.mapScale with
                      | some m => if 0 < m then m else 1.0
                      | none => 1.0
  let (width, height) :=
    if mapScale ≠ 1.0 then
      (max 600 ((⌊width1 * mapScale⌋ : ℤ) : ℚ),
       max 600 ((⌊height1 * mapScale⌋ : ℤ) : ℚ))
    else (width1, height1)
  let biome := jsOrS actConfig.biome "space"
  let (spawn, g) := generateSpawnPoint width height g
  let (par, g) := generateParallax actConfig tune width height g
  let (exitPt, g) := generateExitPoint spawn width height g
  let pool := match actConfig.enemies with
              | some e => e.pool.getD ["grunt"]
              | none => ["grunt"]
  let elitePool := match actConfig.enemies with
                   | some e => e.elitePool.getD ["commander"]
                   | none => ["commander"]
  let (baseSpawns, g) := generateEnemySpawns tune pool enemyDensity width height
    spawn exitPt g
  let (packed, g) := applyPackDirector globals.packs baseSpawns pool spawn exitPt
    env g
  let (elites, g) := generateEliteSpawns tune elitePool eliteDensity width height g
  let (obstacles0, g) := generateObstacles tune obstacleDensity width height
    { depth := depth, mods := mods } env g
  let (decorations, g) := generateDecorations tune actConfig.biome width height g
  let (pois, poiEnemies, poiObstacles, g) := generatePOIs env actConfig width
    height spawn exitPt options.depth g
  let enemySpawns := packed ++ poiEnemies
  let obstacles1 := obstacles0 ++ poiObstacles
  let (nodes, g) := generateResourceNodes width height spawn exitPt
    options.depth g
  let obstacles2 := obstacles1 ++ nodes
  let (objective, generators, g) := generateObjective env enemySpawns.length
    elites.length width height depth g
  let obstacles3 := obstacles2 ++ generators
  let (branchExits, _) :=
    if depth ≥ 3 then
      let (b, g') := generateBranchExits exitPt depth g
      (some b, g')
    else (none, g)
  { seed := zoneSeed, width := width, height := height, biome := biome,
    spawn := spawn, exitPt := exitPt, enemySpawns := enemySpawns,
    eliteSpawns := elites, bossSpawn := none, obstacles := obstacles3,
    decorations := decorations, parallax := par, pickups := [], portals := [],
    pois := pois, resourceNodes := nodes, objective := objective,
    branchExits := branchExits }

-- ------------------------------------------------------------
-- Derived bounds and concrete fixtures used by the theorems
-- ------------------------------------------------------------

/-- An upper bound for `rng.int(a,b)` over in-contract streams:
`⌊a + max 0 (b-a+1)⌋`. -/
def intRBound (a b : ℚ) : ℤ := ⌊a + max 0 (b - a + 1)⌋

/-- Bound on the member count one pack-template member row can request. -/
def memberBound (mm : PacksMember) : ℤ :=
  let mi := mm.min.getD 1
  let ma := mm.max.getD mi
  max 0 (intRBound mi ma)

/-- Bound on the rolled size of a pack built from one template. -/
def tplBound (minS maxS : ℚ) (t : PackTemplate) : ℤ :=
  let base := intRBound minS maxS
  match t.members with
  | some ms =>
    if ms ≠ [] then max (ms.foldl (fun s mm => s + memberBound mm) 0) base
    else base
  | none => base

/-- Bound on the size of any pack the director can roll from its config. -/
def packSizeBound (pd : PacksData) : ℤ :=
  let minS := pd.packSizeMin.getD 3
  let maxS := pd.packSizeMax.getD 5
  pd.templates.foldl (fun b t => max b (tplBound minS maxS t))
    (intRBound minS maxS)

/-- Invariant of the `packGo` loop (C5): the used-index set grows and stays
inside the visited indices, the pack count is monotone and capped by
`⌈maxPacks⌉`, the output grows by at most `packSizeBound` per pack made,
each pack made consumes at least one fresh index, and the PRNG stream is
untouched. -/
def PackInv (spawns : List EnemySpawn) (pool : List String) (spawnPt exitPt : Pt)
    (pd : PacksData) (env : MathEnv) (packChance minSize maxSize maxPacks spacing
      mdSpawn mdExit : ℚ) (l : List ℕ) (used : Finset ℕ) (out : List EnemySpawn)
    (made : ℕ) (g : Rng) : Prop :=
  let R := packGo spawns pool spawnPt exitPt pd env packChance minSize maxSize
    maxPacks spacing mdSpawn mdExit l used out made g
  used ⊆ R.1 ∧
  (∀ x ∈ R.1, x ∈ used ∨ x ∈ l) ∧
  made ≤ R.2.2.1 ∧
  ((R.2.2.1 : ℤ) ≤ max (made : ℤ) ⌈maxPacks⌉) ∧
  ((R.2.1.length : ℤ) ≤ (out.length : ℤ) +
    ((R.2.2.1 : ℤ) - (made : ℤ)) * max 0 (packSizeBound pd)) ∧
  ((used.card : ℤ) + ((R.2.2.1 : ℤ) - (made : ℤ)) ≤ (R.1.card : ℤ)) ∧
  (R.2.2.2).stream = g.stream

/-- A fixed abstract math environment for concrete evaluations (no claim
depends on the values of `cos`/`sin`/`hypot`). -/
def envX : MathEnv := ⟨fun _ => 1, fun _ => 0, fun _ _ => 0⟩

/-- The all-zero PRNG stream. -/
def zeroStream : ℕ → ℚ := fun _ => 0

/-- A small act configuration: fixed 600×600 zone, negative obstacle
density (zero obstacles), singleton pools. -/
def actX : ActConfig :=
  { generation := some { width := .num 600, height := .num 600,
                         obstacleDensity := some (-1) },
    enemies := some { pool := some ["grunt"], elitePool := some ["commander"] } }

/-- Tuning used for the C2 counterexample: all caps that the claim is
about set to zero. -/
def tuneC2 : Tune :=
  { enemyDensityMult := some 0, eliteDensityMult := some 0,
    maxEnemySpawnsPerZone := some 0, maxDecorationsPerZone := some 0,
    maxStarsBackground := some 1, maxStarsMidground := some 1 }

/-- The zone of the C2 counterexample. -/
def zoneC2 : Zone :=
  MapGenerator.generate actX 1 { exploration := tuneC2 } { depth := 1 } envX
    zeroStream

/-- Tuning used for the C4/C7 counterexamples: elite density tuned so the
elite count is 2; caps keeping the zone small. -/
def tuneC4 : Tune :=
  { enemyDensityMult := some 0, eliteDensityMult := some (1/10),
    maxDecorationsPerZone := some 0, maxStarsBackground := some 1,
    maxStarsMidground := some 1 }

/-- The zone of the C4 counterexample. -/
def zoneC4 : Zone :=
  MapGenerator.generate actX 1 { exploration := tuneC4 } { depth := 1 } envX
    zeroStream

/-- Stream of the C7 counterexample: first draw picks the left edge, the
second puts the spawn in the lower half. -/
def streamC7 : ℕ → ℚ := fun n => if n = 0 then 17/50 else if n = 1 then 3/4 else 0

/-- The zone of the C7 counterexample. -/
def zoneC7 : Zone :=
  MapGenerator.generate actX 1 { exploration := tuneC4 } { depth := 1 } envX
    streamC7

/-- Three spawns far from both reference points (C5 counterexample). -/
def spawnsC5 : List EnemySpawn :=
  List.replicate 3 { x := 500, y := 500, type := "grunt", patrol := "static",
                     patrolRadius := 50, active := false, killed := false }

/-- A pack table with one empty template (all defaults; C5 counterexample). -/
def packsC5 : PacksData := { templates := [{}] }

/-- Stream of the C5 counterexample: the size roll (draw 4) yields 5. -/
def streamC5 : ℕ → ℚ := fun n => if n = 4 then 7/10 else 0

/-- The pack-director output of the C5 counterexample. -/
def outC5 : List EnemySpawn :=
  (applyPackDirector (some packsC5) spawnsC5 ["grunt"] ⟨0, 0⟩ ⟨1000, 1000⟩ envX
    ⟨streamC5, 0⟩).1

/-- Entity with a negative explicit radius (C3 counterexample): it is
registered in no cell, yet passes the claim's distance filter. -/
def entNeg : Entity := ⟨0, 2, 2, some (-5), none, none⟩

/-- A plain entity for the index no-op claims. -/
def entA : Entity := ⟨0, 1, 1, some 4, none, none⟩

-- ============================================================
-- Theorems
-- ============================================================

theorem eliteSpawnGo_length (pool : List String) (w h : ℚ) :
    ∀ (fuel : ℕ) (acc : List EliteSpawn) (g : Rng),
      ((eliteSpawnGo pool w h fuel acc g).1).length = acc.length + fuel
  | 0, acc, g => by simp [eliteSpawnGo]
  | fuel + 1, acc, g => by
    simp only [eliteSpawnGo]
    rw [eliteSpawnGo_length pool w h fuel]
    simp
    omega

theorem generateEliteSpawns_ge_one (tune : Tune) (pool : List String)
    (density : ℚ) (w h : ℚ) (g : Rng) :
    1 ≤ ((generateEliteSpawns tune pool density w h g).1).length := by
  unfold generateEliteSpawns
  rw [eliteSpawnGo_length]
  have h1 : (1 : ℤ) ≤ max 1 (min ⌊w * h * density⌋ (tune.maxEliteSpawnsPerZone.getD 8)) :=
    le_max_left _ _
  omega

/-- C10: every non-boss `generate` call returns at least one elite spawn —
`generateEliteSpawns` clamps its count below by `Math.max(1, …)` before the
placement loop, even when the density rounds to zero or
`maxEliteSpawnsPerZone` is zero. -/
theorem C10_elite_at_least_one (actConfig : ActConfig) (zoneSeed : ℤ)
    (globals : Globals) (options : GenOptions) (env : MathEnv) (stream : ℕ → ℚ) :
    1 ≤ ((MapGenerator.generate actConfig zoneSeed globals options env
      stream).eliteSpawns).length :=
  generateEliteSpawns_ge_one _ _ _ _ _ _

/-- C1: `generate` is a pure function of its explicit inputs — the act
configuration, the zone seed (represented by the `next()`-value stream its
`SeededRandom` instance realizes), the global tuning/config table, the
options record and the math environment.  Two calls with identical
arguments return structurally equal Zone values. -/
theorem C1_generate_deterministic (actConfig : ActConfig) (zoneSeed : ℤ)
    (globals : Globals) (options : GenOptions) (env : MathEnv) (stream : ℕ → ℚ) :
    MapGenerator.generate actConfig zoneSeed globals options env stream =
      MapGenerator.generate actConfig zoneSeed globals options env stream := rfl

theorem weightedObjective_mem (depth : ℤ) (roll : ℚ) (h5 : depth < 5) :
    weightedStrGo (objectiveWeights depth) roll "exterminate" = "exterminate" ∨
    weightedStrGo (objectiveWeights depth) roll "exterminate" = "timetrial" ∨
    weightedStrGo (objectiveWeights depth) roll "exterminate" = "lockdown" := by
  simp only [objectiveWeights, if_pos h5, weightedStrGo]
  split_ifs <;>
    first
      | (left; rfl)
      | (right; left; rfl)
      | (right; right; rfl)
      | (exfalso; linarith)

theorem generateObjective_none (env : MathEnv) (ec elc : ℕ) (w h : ℚ)
    (depth : ℤ) (g : Rng) (h2 : depth ≤ 2) :
    (generateObjective env ec elc w h depth g).1 = none := by
  unfold generateObjective; rw [if_pos h2]

theorem generateObjective_gated (env : MathEnv) (ec elc : ℕ) (w h : ℚ)
    (depth : ℤ) (g : Rng) (h5 : depth < 5) :
    ∀ o, (generateObjective env ec elc w h depth g).1 = some o →
      o.type ≠ "survival" ∧ o.type ≠ "corruption" := by
  intro o ho
  by_cases h2 : depth ≤ 2
  · rw [generateObjective_none env ec elc w h depth g h2] at ho
    simp at ho
  · unfold generateObjective at ho
    rw [if_neg h2] at ho
    simp only [] at ho
    rcases weightedObjective_mem depth
        (Rng.rangeQ 0 (List.foldl (fun s o => s + o.2) 0 (objectiveWeights depth)) g).1 h5
      with hp | hp | hp <;>
      rw [hp] at ho <;> simp only [reduceIte, String.reduceEq] at ho <;>
      simp only [Option.some.injEq] at ho <;> subst ho <;>
      exact ⟨by simp, by simp⟩

theorem jsOrZ_le_two (d : ℤ) (h : d < 3) : jsOrZ d 1 ≤ 2 := by
  unfold jsOrZ; split_ifs <;> omega

theorem jsOrZ_lt_five (d : ℤ) (h : d < 5) : jsOrZ d 1 < 5 := by
  unfold jsOrZ; split_ifs <;> omega

/-- C6: objective gating in `generate` — a requested depth below 3 yields a
`null` objective (the code checks the effective depth `options.depth || 1`
against 2), and below depth 5 the `survival` and `corruption` archetypes
have weight 0 and are never selected by the weighted walk. -/
theorem C6_objective_gating (actConfig : ActConfig) (zoneSeed : ℤ)
    (globals : Globals) (options : GenOptions) (env : MathEnv) (stream : ℕ → ℚ) :
    (options.depth < 3 →
      (MapGenerator.generate actConfig zoneSeed globals options env
        stream).objective = none) ∧
    (options.depth < 5 →
      ∀ o, (MapGenerator.generate actConfig zoneSeed globals options env
              stream).objective = some o →
        o.type ≠ "survival" ∧ o.type ≠ "corruption") := by
  constructor
  · intro hd
    exact generateObjective_none _ _ _ _ _ _ _ (jsOrZ_le_two _ hd)
  · intro hd
    exact generateObjective_gated _ _ _ _ _ _ _ (jsOrZ_lt_five _ hd)

/-- C6 witness: at depth 1 (< 3) the concrete zone's objective is `none`. -/
theorem C6_objective_gating_witness :
    ((1 : ℤ) < 3) ∧
      (MapGenerator.generate actX 1 { exploration := tuneC4 } { depth := 1 }
        envX zeroStream).objective = none :=
  ⟨by decide,
   (C6_objective_gating actX 1 { exploration := tuneC4 } { depth := 1 } envX
      zeroStream).1 (by decide)⟩

theorem generateExitPoint_spec (spawn : Pt) (w h : ℚ) (g : Rng) :
    (spawn.y > h / 2 → ((generateExitPoint spawn w h g).1).y = 100) ∧
    (¬ spawn.y > h / 2 → spawn.x < w / 2 →
      ((generateExitPoint spawn w h g).1).x = w - 100) ∧
    (¬ spawn.y > h / 2 → ¬ spawn.x < w / 2 →
      ((generateExitPoint spawn w h g).1).x = 100) := by
  unfold generateExitPoint
  refine ⟨fun h1 => by simp [h1], fun h1 h2 => by simp [h1, h2],
    fun h1 h2 => by simp [h1, h2]⟩

/-- C7 (amended): the exit is opposite only in the vertical sense the code
implements — a spawn in the lower half of the zone (every bottom-edge spawn
when `height > 200`, but also side-edge spawns whose random `y` lands in
the lower half) gets a top exit; side spawns in the upper half get the
horizontally opposite edge (`x < w/2` ⇒ right exit, else left exit). -/
theorem C7_exit_opposite_amended (actConfig : ActConfig) (zoneSeed : ℤ)
    (globals : Globals) (options : GenOptions) (env : MathEnv) (stream : ℕ → ℚ)
    (z : Zone)
    (hz : z = MapGenerator.generate actConfig zoneSeed globals options env
      stream) :
    (200 < z.height → z.spawn.y = z.height - 100 → z.exitPt.y = 100) ∧
    (z.spawn.y ≤ z.height / 2 → z.spawn.x < z.width / 2 →
      z.exitPt.x = z.width - 100) ∧
    (z.spawn.y ≤ z.height / 2 → ¬ z.spawn.x < z.width / 2 →
      z.exitPt.x = 100) := by
  subst hz
  refine ⟨fun hh hsp => ?_, fun h1 h2 => ?_, fun h1 h2 => ?_⟩
  · have hy : (MapGenerator.generate actConfig zoneSeed globals options env
        stream).spawn.y >
        (MapGenerator.generate actConfig zoneSeed globals options env
          stream).height / 2 := by
      rw [hsp]; linarith
    exact (generateExitPoint_spec _ _ _ _).1 hy
  · exact (generateExitPoint_spec _ _ _ _).2.1 (not_lt.mpr h1) h2
  · exact (generateExitPoint_spec _ _ _ _).2.2 (not_lt.mpr h1) h2

/-- C7 counterexample: a concretely generated 600×600 zone whose spawn sits
on the LEFT edge (`x = 100`, the margin) but whose exit is on the TOP edge
(`y = 100`), not the right edge (`x ≠ 500 = w - 100`): the code sends every
lower-half spawn to a top exit regardless of its edge. -/
theorem C7_counterexample :
    zoneC7.width = 600 ∧ zoneC7.height = 600 ∧
    zoneC7.spawn = ⟨100, 400⟩ ∧ zoneC7.exitPt = ⟨100, 100⟩ := by
  with_unfolding_all decide

/-- C7 witness: the surviving bottom-edge case, discharged on a concrete
zone (spawn on the bottom edge, exit on the top edge). -/
theorem C7_exit_opposite_amended_witness :
    (200 < zoneC4.height ∧ zoneC4.spawn.y = zoneC4.height - 100) ∧
      zoneC4.exitPt.y = 100 :=
  ⟨⟨by with_unfolding_all decide, by with_unfolding_all decide⟩,
   (C7_exit_opposite_amended actX 1 { exploration := tuneC4 } { depth := 1 }
      envX zeroStream zoneC4 rfl).1 (by with_unfolding_all decide)
     (by with_unfolding_all decide)⟩

theorem Rng.intR_le (a b : ℚ) (c : ℤ) (g : Rng) (h0 : 0 ≤ g.stream g.k)
    (h1 : g.stream g.k < 1) (hab : a ≤ b) (hbc : b ≤ (c : ℚ)) :
    (Rng.intR a b g).1 ≤ c := by
  unfold Rng.intR Rng.next
  simp only []
  have hM : (0 : ℚ) < b - a + 1 := by linarith
  have hx : a + g.stream g.k * (b - a + 1) < (c : ℚ) + 1 := by
    nlinarith
  have : a + g.stream g.k * (b - a + 1) < ((c + 1 : ℤ) : ℚ) := by push_cast; linarith
  have := Int.floor_lt.mpr this
  omega

theorem Rng.intR_ge (a b : ℚ) (c : ℤ) (g : Rng) (h0 : 0 ≤ g.stream g.k)
    (hab : a ≤ b) (hca : (c : ℚ) ≤ a) :
    c ≤ (Rng.intR a b g).1 := by
  unfold Rng.intR Rng.next
  simp only []
  have hM : (0 : ℚ) ≤ b - a + 1 := by linarith
  have hx : (c : ℚ) ≤ a + g.stream g.k * (b - a + 1) := by nlinarith
  exact Int.le_floor.mpr hx

theorem dustGo_len (biome : Option String) (w h : ℚ) :
    ∀ (fuel : ℕ) (acc : List Decoration) (g : Rng),
      ((dustGo biome w h fuel acc g).1).length = acc.length + fuel ∧
      ((dustGo biome w h fuel acc g).2).stream = g.stream := by
  intro fuel
  induction fuel with
  | zero => intro acc g; simp [dustGo]
  | succ n ih =>
    intro acc g
    simp only [dustGo]
    refine ⟨?_, ?_⟩
    · rw [(ih _ _).1]; simp; omega
    · rw [(ih _ _).2]; rfl

theorem nebulaGo_len (biome : Option String) (w h : ℚ) :
    ∀ (fuel : ℕ) (acc : List Decoration) (g : Rng),
      ((nebulaGo biome w h fuel acc g).1).length = acc.length + fuel ∧
      ((nebulaGo biome w h fuel acc g).2).stream = g.stream := by
  intro fuel
  induction fuel with
  | zero => intro acc g; simp [nebulaGo]
  | succ n ih =>
    intro acc g
    simp only [nebulaGo]
    refine ⟨?_, ?_⟩
    · rw [(ih _ _).1]; simp; omega
    · rw [(ih _ _).2]; rfl

theorem landmarkGo_len (types : List String) (w h : ℚ) :
    ∀ (fuel : ℕ) (acc : List Decoration) (g : Rng),
      ((landmarkGo types w h fuel acc g).1).length = acc.length + fuel ∧
      ((landmarkGo types w h fuel acc g).2).stream = g.stream := by
  intro fuel
  induction fuel with
  | zero => intro acc g; simp [landmarkGo]
  | succ n ih =>
    intro acc g
    simp only [landmarkGo]
    refine ⟨?_, ?_⟩
    · rw [(ih _ _).1]; simp; omega
    · rw [(ih _ _).2]; rfl

theorem smallDecoGo_len (pool : List String) (w h : ℚ) :
    ∀ (fuel : ℕ) (acc : List Decoration) (g : Rng),
      ((smallDecoGo pool w h fuel acc g).1).length = acc.length + fuel := by
  intro fuel
  induction fuel with
  | zero => intro acc g; simp [smallDecoGo]
  | succ n ih =>
    intro acc g
    simp only [smallDecoGo]
    rw [ih _ _]; simp; omega

theorem scatterGo_len (depth : ℤ) (mf : Bool) (w h : ℚ) :
    ∀ (fuel : ℕ) (acc : List Obstacle) (g : Rng),
      ((scatterGo depth mf w h fuel acc g).1).length = acc.length + fuel := by
  intro fuel
  induction fuel with
  | zero => intro acc g; simp [scatterGo]
  | succ n ih =>
    intro acc g
    simp only [scatterGo]
    rw [ih _ _]; simp; omega

theorem generateDecorations_le (tune : Tune) (biome : Option String) (w h : ℚ)
    (g : Rng) (hg : StreamOK g.stream) :
    (((generateDecorations tune biome w h g).1).length : ℤ) ≤
      max (tune.maxDecorationsPerZone.getD 3000) 19 := by
  unfold generateDecorations
  simp only []
  set g0 := g with hg0
  have hd := Rng.intR_le 4 8 8 g0 (hg _).1 (hg _).2 (by norm_num) (by norm_num)
  set dc := (Rng.intR 4 8 g0).1 with hdc
  set g1 := (Rng.intR 4 8 g0).2 with hg1
  obtain ⟨hl1, hs1⟩ := dustGo_len biome w h dc.toNat [] g1
  set r1 := dustGo biome w h dc.toNat [] g1 with hr1
  have hs1' : r1.2.stream = g.stream := by rw [hs1]; rfl

  have hn := Rng.intR_le 2 5 5 r1.2 (hs1' ▸ hg _).1 (hs1' ▸ hg _).2 (by norm_num)
    (by norm_num)
  set nc := (Rng.intR 2 5 r1.2).1 with hnc
  obtain ⟨hl2, hs2⟩ := nebulaGo_len biome w h nc.toNat r1.1 (Rng.intR 2 5 r1.2).2
  set r2 := nebulaGo biome w h nc.toNat r1.1 (Rng.intR 2 5 r1.2).2 with hr2
  have hs2' : r2.2.stream = g.stream := by
    rw [hs2]; show r1.2.stream = g.stream; exact hs1'
  have hlm := Rng.intR_le 3 6 6 r2.2 (hs2' ▸ hg _).1 (hs2' ▸ hg _).2 (by norm_num)
    (by norm_num)
  set lc := (Rng.intR 3 6 r2.2).1 with hlc
  obtain ⟨hl3, _⟩ := landmarkGo_len (getLandmarkTypes biome) w h lc.toNat r2.1
    (Rng.intR 3 6 r2.2).2
  set r3 := landmarkGo (getLandmarkTypes biome) w h lc.toNat r2.1
    (Rng.intR 3 6 r2.2).2 with hr3
  rw [smallDecoGo_len]
  rw [hl3, hl2, hl1]
  simp only [List.length_nil]
  set maxDec := tune.maxDecorationsPerZone.getD 3000 with hmd
  set base := (0 + dc.toNat + nc.toNat) + lc.toNat with hbase
  have hb19 : (base : ℤ) ≤ 19 := by
    have : r3.1.length = base := by rw [hl3, hl2, hl1]; simp [hbase]
    omega
  by_cases hsc : (0 : ℤ) < min (maxDec - r3.1.length) ⌊w * h * 0.0004⌋
  · have h1 : (min (maxDec - (r3.1.length : ℤ)) ⌊w * h * 0.0004⌋).toNat ≤
        (maxDec - (r3.1.length : ℤ)).toNat := by
      have := min_le_left (maxDec - (r3.1.length : ℤ)) ⌊w * h * 0.0004⌋
      omega
    have hr3b : r3.1.length = base := by rw [hl3, hl2, hl1]; simp [hbase]
    omega
  · have : (min ((maxDec : ℤ) - r3.1.length) ⌊w * h * 0.0004⌋).toNat = 0 := by omega
    have hr3b : r3.1.length = base := by rw [hl3, hl2, hl1]; simp [hbase]
    omega

theorem enemySpawnGo_le (pool : List String) (count : ℤ) (m1 m2 m3 w h : ℚ)
    (sp ex : Pt) :
    ∀ (fuel : ℕ) (acc : List EnemySpawn) (g : Rng),
      ((enemySpawnGo pool count m1 m2 m3 w h sp ex fuel acc g).1).length ≤
        max acc.length count.toNat := by
  intro fuel
  induction fuel with
  | zero => intro acc g; simp [enemySpawnGo]
  | succ n ih =>
    intro acc g
    simp only [enemySpawnGo]
    split_ifs with h1 h2 h3 h4
    · exact le_trans (ih _ _) (by omega)
    · exact le_trans (ih _ _) (by omega)
    · exact le_trans (ih _ _) (by omega)
    · refine le_trans (ih _ _) ?_
      simp only [List.length_append, List.length_singleton]
      omega
    · simp only []
      exact le_max_left _ _

theorem generateEnemySpawns_le (tune : Tune) (pool : List String) (density : ℚ)
    (w h : ℚ) (sp ex : Pt) (g : Rng) :
    (((generateEnemySpawns tune pool density w h sp ex g).1).length : ℤ) ≤
      max 0 (tune.maxEnemySpawnsPerZone.getD 120) := by
  unfold generateEnemySpawns
  simp only []
  have := enemySpawnGo_le pool
    (max 0 (min ⌊w * h * density⌋ (tune.maxEnemySpawnsPerZone.getD 120)))
    (tune.enemySpawnMinDistFromSpawn.getD 300)
    (tune.enemySpawnMinDistFromExit.getD 200)
    (tune.enemySpawnMinDistBetween.getD 150) w h sp ex
    ((max 0 (min ⌊w * h * density⌋ (tune.maxEnemySpawnsPerZone.getD 120))) * 3).toNat
    [] g
  simp only [List.length_nil] at this
  omega

theorem generateEliteSpawns_le (tune : Tune) (pool : List String) (density : ℚ)
    (w h : ℚ) (g : Rng) :
    (((generateEliteSpawns tune pool density w h g).1).length : ℤ) ≤
      max 1 (tune.maxEliteSpawnsPerZone.getD 8) := by
  unfold generateEliteSpawns
  rw [eliteSpawnGo_length]
  simp only [List.length_nil]
  omega

theorem corridorAsteroidGo_le (env : MathEnv) (w h budget cw bx bY jx jy px py
    side : ℚ) :
    ∀ (fuel : ℕ) (acc : List Obstacle) (g : Rng),
      ((corridorAsteroidGo env w h budget cw bx bY jx jy px py side fuel acc
        g).1).length ≤ max acc.length ⌊budget⌋.toNat := by
  intro fuel
  induction fuel with
  | zero => intro acc g; simp [corridorAsteroidGo]
  | succ n ih =>
    intro acc g
    simp only [corridorAsteroidGo]
    split_ifs with h1 h2
    · exact le_trans (ih _ _) (by omega)
    · refine le_trans (ih _ _) ?_
      simp only [List.length_append, List.length_singleton]
      omega
    · simp only []
      exact le_max_left _ _

theorem corridorSegmentGo_le (env : MathEnv) (w h budget cw sx sy ex ey
    segments perCorridor : ℚ) :
    ∀ (fuel : ℕ) (s : ℚ) (acc : List Obstacle) (g : Rng),
      ((corridorSegmentGo env w h budget cw sx sy ex ey segments perCorridor
        fuel s acc g).1).length ≤ max acc.length ⌊budget⌋.toNat := by
  intro fuel
  induction fuel with
  | zero => intro s acc g; simp [corridorSegmentGo]
  | succ n ih =>
    intro s acc g
    simp only [corridorSegmentGo]
    refine le_trans (ih _ _ _) ?_
    refine max_le ?_ (le_max_right _ _)
    refine le_trans (corridorAsteroidGo_le _ _ _ _ _ _ _ _ _ _ _ _ _ _ _) ?_
    refine max_le ?_ (le_max_right _ _)
    refine le_trans (corridorAsteroidGo_le _ _ _ _ _ _ _ _ _ _ _ _ _ _ _) ?_
    exact max_le (le_max_left _ _) (le_max_right _ _)

theorem corridorOneGo_le (env : MathEnv) (w h budget perCorridor : ℚ)
    (acc : List Obstacle) (g : Rng) :
    ((corridorOneGo env w h budget perCorridor acc g).1).length ≤
      max acc.length ⌊budget⌋.toNat := by
  unfold corridorOneGo
  simp only []
  split_ifs <;> exact corridorSegmentGo_le env w h budget _ _ _ _ _ _ _ _ _ _ _

theorem corridorAllGo_le (env : MathEnv) (w h budget perCorridor : ℚ) :
    ∀ (fuel : ℕ) (acc : List Obstacle) (g : Rng),
      ((corridorAllGo env w h budget perCorridor fuel acc g).1).length ≤
        max acc.length ⌊budget⌋.toNat := by
  intro fuel
  induction fuel with
  | zero => intro acc g; simp [corridorAllGo]
  | succ n ih =>
    intro acc g
    simp only [corridorAllGo]
    refine le_trans (ih _ _) ?_
    refine max_le ?_ (le_max_right _ _)
    exact le_trans (corridorOneGo_le _ _ _ _ _ _ _)
      (max_le (le_max_left _ _) (le_max_right _ _))

theorem generateCorridorWalls_le (env : MathEnv) (w h : ℚ) (budget : ℤ)
    (g : Rng) :
    (((generateCorridorWalls env w h budget g).1).length : ℤ) ≤
      max 0 budget := by
  unfold generateCorridorWalls
  simp only []
  have := corridorAllGo_le env w h (budget : ℚ)
    ((⌊(budget : ℚ) / ((Rng.intR 2 4 g).1 : ℚ)⌋ : ℤ) : ℚ)
    (Rng.intR 2 4 g).1.toNat [] (Rng.intR 2 4 g).2
  simp only [List.length_nil, Int.floor_intCast] at this
  omega

theorem clusterInnerGo_bound (env : MathEnv) (depth : ℤ) (mf : Bool) (cb : ℤ)
    (cx cy cr : ℚ) :
    ∀ (fuel : ℕ) (acc : List Obstacle) (usedC : ℤ) (g : Rng),
      (((clusterInnerGo env depth mf cb cx cy cr fuel acc usedC g).1).length : ℤ)
          + max 0 (cb - (clusterInnerGo env depth mf cb cx cy cr fuel acc usedC
              g).2.1) ≤
        acc.length + max 0 (cb - usedC) := by
  intro fuel
  induction fuel with
  | zero => intro acc usedC g; simp [clusterInnerGo]
  | succ n ih =>
    intro acc usedC g
    by_cases h1 : usedC < cb
    · have step : ∀ (e : Obstacle) (g2 : Rng),
          (((clusterInnerGo env depth mf cb cx cy cr n (acc ++ [e]) (usedC + 1)
              g2).1).length : ℤ)
            + max 0 (cb - (clusterInnerGo env depth mf cb cx cy cr n (acc ++ [e])
                (usedC + 1) g2).2.1) ≤
          acc.length + max 0 (cb - usedC) := by
        intro e g2
        refine le_trans (ih (acc ++ [e]) (usedC + 1) g2) ?_
        simp only [List.length_append, List.length_singleton]
        omega
      simp only [clusterInnerGo, if_pos h1]
      exact step _ _
    · simp only [clusterInnerGo, if_neg h1]
      omega

theorem clusterOuterGo_bound (env : MathEnv) (depth : ℤ) (mf : Bool) (cb : ℤ)
    (w h : ℚ) :
    ∀ (fuel : ℕ) (acc : List Obstacle) (usedC : ℤ) (g : Rng),
      (((clusterOuterGo env depth mf cb w h fuel acc usedC g).1).length : ℤ) ≤
        acc.length + max 0 (cb - usedC) := by
  intro fuel
  induction fuel with
  | zero => intro acc usedC g; simp [clusterOuterGo]
  | succ n ih =>
    intro acc usedC g
    by_cases h1 : usedC < cb
    · have step : ∀ (accI : List Obstacle) (uI : ℤ) (gI : Rng),
          (accI.length : ℤ) + max 0 (cb - uI) ≤
              acc.length + max 0 (cb - usedC) →
          (((clusterOuterGo env depth mf cb w h n accI uI gI).1).length : ℤ) ≤
            acc.length + max 0 (cb - usedC) :=
        fun accI uI gI hle => le_trans (ih accI uI gI) hle
      simp only [clusterOuterGo, if_pos h1]
      exact step _ _ _ (clusterInnerGo_bound env depth mf cb _ _ _ _ acc usedC _)
    · simp only [clusterOuterGo, if_neg h1]
      omega

theorem generateObstacles_le (tune : Tune) (density : ℚ) (w h : ℚ)
    (options : ObsOptions) (env : MathEnv) (g : Rng)
    (hdiff : jsOrS options.difficulty "normal" ≠ "chaos") :
    (((generateObstacles tune density w h options env g).1).length : ℤ) ≤
      max 0 (tune.maxObstaclesPerZone.getD 1200) := by
  unfold generateObstacles
  simp only []
  rw [if_neg hdiff]
  rw [scatterGo_len]
  set maxObs : ℤ := tune.maxObstaclesPerZone.getD 1200 with hmo
  set B : ℤ := min ⌊w * h * density⌋ maxObs with hB
  set cb1 : ℤ := ⌊(B : ℚ) * 0.4⌋ with hcb1
  set cb2 : ℤ := ⌊(B : ℚ) * 0.3⌋ with hcb2
  have hBm : B ≤ maxObs := min_le_right _ _
  have hf1 : ((cb1 : ℤ) : ℚ) ≤ (B : ℚ) * 0.4 := Int.floor_le _
  have hf2 : ((cb2 : ℤ) : ℚ) ≤ (B : ℚ) * 0.3 := Int.floor_le _
  have hq : 0 ≤ B → cb1 + cb2 ≤ B := by
    intro hb
    have hbq : (0 : ℚ) ≤ (B : ℚ) := by exact_mod_cast hb
    have : ((cb1 + cb2 : ℤ) : ℚ) ≤ (B : ℚ) := by push_cast; nlinarith
    exact_mod_cast this
  have hq2 : B < 0 → cb1 ≤ 0 ∧ cb2 ≤ 0 := by
    intro hb
    have hbq : (B : ℚ) < 0 := by exact_mod_cast hb
    constructor
    · have : ((cb1 : ℤ) : ℚ) ≤ 0 := by nlinarith
      exact_mod_cast this
    · have : ((cb2 : ℤ) : ℚ) ≤ 0 := by nlinarith
      exact_mod_cast this
  have hq3 : 0 ≤ B → 0 ≤ cb1 ∧ 0 ≤ cb2 := by
    intro hb
    have hbq : (0 : ℚ) ≤ (B : ℚ) := by exact_mod_cast hb
    constructor
    · exact Int.le_floor.mpr (by push_cast; nlinarith)
    · exact Int.le_floor.mpr (by push_cast; nlinarith)
  suffices H : ∀ n2 : ℕ, (n2 : ℤ) ≤ max 0 cb1 + max 0 cb2 →
      ((n2 + (B - (n2 : ℤ)).toNat : ℕ) : ℤ) ≤ max 0 maxObs by
    refine H _ ?_
    refine le_trans (clusterOuterGo_bound _ _ _ _ _ _ _ _ _ _) ?_
    have hw := generateCorridorWalls_le env w h cb1 g
    omega
  intro n2 hn2
  omega

/-- C2 (amended): the configured caps are enforced by the placement
routines on the lists they build — enemy spawns never exceed
`max 0 maxEnemySpawnsPerZone`, elites never exceed
`max 1 maxEliteSpawnsPerZone` (the lower clamp of 1 can exceed a zero
cap), obstacles never exceed `max 0 maxObstaclesPerZone` outside chaos
difficulty, and decorations never exceed `max maxDecorationsPerZone 19`
(the cap limits only the small-scatter layer; the fixed layers add at most
19).  The final Zone lists can exceed the caps through POI injection, pack
grouping, resource nodes and lockdown generators (see the
counterexample). -/
theorem C2_caps_amended (tune : Tune) (pool poolE : List String)
    (dE dEl dOb : ℚ) (w h : ℚ) (sp ex : Pt) (options : ObsOptions)
    (biome : Option String) (env : MathEnv) (g1 g2 g3 g4 : Rng)
    (hdiff : jsOrS options.difficulty "normal" ≠ "chaos")
    (hg : StreamOK g4.stream) :
    (((generateEnemySpawns tune pool dE w h sp ex g1).1).length : ℤ) ≤
        max 0 (tune.maxEnemySpawnsPerZone.getD 120) ∧
    (((generateEliteSpawns tune poolE dEl w h g2).1).length : ℤ) ≤
        max 1 (tune.maxEliteSpawnsPerZone.getD 8) ∧
    (((generateObstacles tune dOb w h options env g3).1).length : ℤ) ≤
        max 0 (tune.maxObstaclesPerZone.getD 1200) ∧
    (((generateDecorations tune biome w h g4).1).length : ℤ) ≤
        max (tune.maxDecorationsPerZone.getD 3000) 19 :=
  ⟨generateEnemySpawns_le tune pool dE w h sp ex g1,
   generateEliteSpawns_le tune poolE dEl w h g2,
   generateObstacles_le tune dOb w h options env g3 hdiff,
   generateDecorations_le tune biome w h g4 hg⟩

/-- C2 counterexample: with `maxDecorationsPerZone = 0` and
`maxEnemySpawnsPerZone = 0` the returned Zone still contains 9 decorations
(the dust/nebula/landmark layers ignore the cap) and 8 enemy spawns
(injected by the two POIs after the clamp) — the caps are not a hard clamp
on the final returned lists. -/
theorem C2_counterexample :
    tuneC2.maxDecorationsPerZone = some 0 ∧
    tuneC2.maxEnemySpawnsPerZone = some 0 ∧
    zoneC2.decorations.length = 9 ∧
    zoneC2.enemySpawns.length = 8 := by
  refine ⟨rfl, rfl, ?_, ?_⟩ <;> with_unfolding_all decide

/-- C2 witness: the amended bounds instantiated on concrete inputs, both
hypotheses discharged. -/
theorem C2_caps_amended_witness :
    (jsOrS (({} : ObsOptions).difficulty) "normal" ≠ "chaos" ∧
      StreamOK zeroStream) ∧
    (((generateDecorations {} none 600 600 ⟨zeroStream, 0⟩).1).length : ℤ) ≤
      max (({} : Tune).maxDecorationsPerZone.getD 3000) 19 :=
  ⟨⟨by decide, fun n => ⟨by norm_num [zeroStream], by norm_num [zeroStream]⟩⟩,
   (C2_caps_amended {} ["grunt"] ["commander"] 1 1 1 600 600 ⟨0, 0⟩ ⟨500, 500⟩
      {} none envX ⟨zeroStream, 0⟩ ⟨zeroStream, 0⟩ ⟨zeroStream, 0⟩
      ⟨zeroStream, 0⟩ (by decide)
      (fun n => ⟨by norm_num [zeroStream], by norm_num [zeroStream]⟩)).2.2.2⟩

theorem enemySpawnGo_dist (pool : List String) (count : ℤ) (m1 m2 m3 : ℚ)
    (w h : ℚ) (sp ex : Pt) :
    ∀ (fuel : ℕ) (acc : List EnemySpawn) (g : Rng),
      (∀ s ∈ acc, ¬ hypotLt (s.x - sp.x) (s.y - sp.y) m1 ∧
                  ¬ hypotLt (s.x - ex.x) (s.y - ex.y) m2) →
      acc.Pairwise (fun s t => ¬ hypotLt (t.x - s.x) (t.y - s.y) m3) →
      (∀ s ∈ (enemySpawnGo pool count m1 m2 m3 w h sp ex fuel acc g).1,
          ¬ hypotLt (s.x - sp.x) (s.y - sp.y) m1 ∧
          ¬ hypotLt (s.x - ex.x) (s.y - ex.y) m2) ∧
      ((enemySpawnGo pool count m1 m2 m3 w h sp ex fuel acc g).1).Pairwise
          (fun s t => ¬ hypotLt (t.x - s.x) (t.y - s.y) m3) := by
  intro fuel
  induction fuel with
  | zero => intro acc g hA hP; simpa [enemySpawnGo] using ⟨hA, hP⟩
  | succ n ih =>
    intro acc g hA hP
    simp only [enemySpawnGo]
    split_ifs with h1 h2 h3 h4
    · exact ih _ _ hA hP
    · exact ih _ _ hA hP
    · exact ih _ _ hA hP
    · have h4' : ∀ s ∈ acc,
          ¬ hypotLt ((Rng.rangeQ 100 (w - 100) g).1 - s.x)
            ((Rng.rangeQ 100 (h - 100) (Rng.rangeQ 100 (w - 100) g).2).1 - s.y)
            m3 := by
        intro s hs hc
        apply h4
        simp only [List.any_eq_true, decide_eq_true_eq]
        exact ⟨s, hs, hc⟩
      refine ih _ _ ?_ ?_
      · intro s hs
        rcases List.mem_append.mp hs with hs | hs
        · exact hA s hs
        · rcases List.mem_singleton.mp hs with rfl
          exact ⟨h2, h3⟩
      · rw [List.pairwise_append]
        refine ⟨hP, List.pairwise_singleton _ _, ?_⟩
        intro s hs t ht
        rcases List.mem_singleton.mp ht with rfl
        exact h4' s hs
    · simpa using ⟨hA, hP⟩

theorem generateEnemySpawns_dist (tune : Tune) (pool : List String)
    (density : ℚ) (w h : ℚ) (sp ex : Pt) (g : Rng) :
    (∀ s ∈ (generateEnemySpawns tune pool density w h sp ex g).1,
        ¬ hypotLt (s.x - sp.x) (s.y - sp.y)
            (tune.enemySpawnMinDistFromSpawn.getD 300) ∧
        ¬ hypotLt (s.x - ex.x) (s.y - ex.y)
            (tune.enemySpawnMinDistFromExit.getD 200)) ∧
    ((generateEnemySpawns tune pool density w h sp ex g).1).Pairwise
        (fun s t => ¬ hypotLt (t.x - s.x) (t.y - s.y)
            (tune.enemySpawnMinDistBetween.getD 150)) := by
  unfold generateEnemySpawns
  exact enemySpawnGo_dist _ _ _ _ _ _ _ _ _ _ _ _ (by simp) (by simp)

theorem resourceAttemptGo_ok (w h : ℚ) (sp ex : Pt) :
    ∀ (fuel : ℕ) (g : Rng) (p : Pt),
      (resourceAttemptGo w h sp ex fuel g).1 = some p →
      ¬ hypotLt (p.x - sp.x) (p.y - sp.y) 300 ∧
      ¬ hypotLt (p.x - ex.x) (p.y - ex.y) 200 := by
  intro fuel
  induction fuel with
  | zero => intro g p hp; simp [resourceAttemptGo] at hp
  | succ n ih =>
    intro g p hp
    simp only [resourceAttemptGo] at hp
    split_ifs at hp with h1 h2
    · exact ih _ _ hp
    · exact ih _ _ hp
    · simp only [Option.some.injEq] at hp
      subst hp
      exact ⟨h1, h2⟩

theorem resourceNodeGo_ok (depth : ℤ) (nodeTypes : List NodeType)
    (totalWeight : ℚ) (w h : ℚ) (sp ex : Pt) :
    ∀ (fuel : ℕ) (acc : List Obstacle) (g : Rng),
      (∀ nd ∈ acc, ¬ hypotLt (nd.x - sp.x) (nd.y - sp.y) 300 ∧
                   ¬ hypotLt (nd.x - ex.x) (nd.y - ex.y) 200) →
      ∀ nd ∈ (resourceNodeGo depth nodeTypes totalWeight w h sp ex fuel acc
          g).1,
        ¬ hypotLt (nd.x - sp.x) (nd.y - sp.y) 300 ∧
        ¬ hypotLt (nd.x - ex.x) (nd.y - ex.y) 200 := by
  intro fuel
  induction fuel with
  | zero => intro acc g hacc; simpa [resourceNodeGo] using hacc
  | succ n ih =>
    intro acc g hacc
    rcases hA : (resourceAttemptGo w h sp ex 20 g).1 with _ | p
    · simp only [resourceNodeGo, hA]
      exact ih _ _ hacc
    · simp only [resourceNodeGo, hA]
      refine ih _ _ ?_
      intro nd hnd
      rcases List.mem_append.mp hnd with hnd | hnd
      · exact hacc nd hnd
      · rcases List.mem_singleton.mp hnd with rfl
        exact resourceAttemptGo_ok w h sp ex 20 g p hA

theorem generateResourceNodes_ok (w h : ℚ) (sp ex : Pt) (optDepth : ℤ)
    (g : Rng) :
    ∀ nd ∈ (generateResourceNodes w h sp ex optDepth g).1,
      ¬ hypotLt (nd.x - sp.x) (nd.y - sp.y) 300 ∧
      ¬ hypotLt (nd.x - ex.x) (nd.y - ex.y) 200 := by
  unfold generateResourceNodes
  exact resourceNodeGo_ok _ _ _ _ _ _ _ _ _ _ (by simp)

/-- C4 (amended): the distance invariants hold only where the code checks
them — the rejection-sampled base enemy spawns are at least the configured
minima from the zone spawn, the exit and each other (expressed via the
squared-distance predicate `hypotLt`), and the resource nodes are at least
the hardcoded 300/200 from spawn/exit.  Elite spawns, pack members and
POI-injected enemies get no distance checks at all, and resource nodes are
not checked against each other (see the counterexample). -/
theorem C4_distances_amended (tune : Tune) (pool : List String) (density : ℚ)
    (w h : ℚ) (sp ex : Pt) (g : Rng) (actConfig : ActConfig) (zoneSeed : ℤ)
    (globals : Globals) (options : GenOptions) (env : MathEnv)
    (stream : ℕ → ℚ) (z : Zone)
    (hz : z = MapGenerator.generate actConfig zoneSeed globals options env
      stream) :
    ((∀ s ∈ (generateEnemySpawns tune pool density w h sp ex g).1,
        ¬ hypotLt (s.x - sp.x) (s.y - sp.y)
            (tune.enemySpawnMinDistFromSpawn.getD 300) ∧
        ¬ hypotLt (s.x - ex.x) (s.y - ex.y)
            (tune.enemySpawnMinDistFromExit.getD 200)) ∧
    ((generateEnemySpawns tune pool density w h sp ex g).1).Pairwise
        (fun s t => ¬ hypotLt (t.x - s.x) (t.y - s.y)
            (tune.enemySpawnMinDistBetween.getD 150))) ∧
    (∀ nd ∈ z.resourceNodes,
        ¬ hypotLt (nd.x - z.spawn.x) (nd.y - z.spawn.y) 300 ∧
        ¬ hypotLt (nd.x - z.exitPt.x) (nd.y - z.exitPt.y) 200) := by
  subst hz
  exact ⟨generateEnemySpawns_dist tune pool density w h sp ex g,
         generateResourceNodes_ok _ _ _ _ _ _⟩

/-- C4 counterexample: a concrete generated zone whose two elite spawns sit
at the identical position (200, 200) — same-category distance 0, violating
every positive configured minimum (e.g. the configured between-spawn
default of 150, shown satisfied by `hypotLt 0 0 150`). -/
theorem C4_counterexample :
    zoneC4.eliteSpawns.map (fun e => (e.x, e.y)) = [(200, 200), (200, 200)] ∧
    hypotLt (200 - 200) (200 - 200) 150 := by
  constructor
  · with_unfolding_all decide
  · with_unfolding_all decide

/-- C4 witness: the amended statement instantiated on the concrete zone
(`hz` discharged by `rfl`); its resource nodes all satisfy the 300/200
spawn/exit margins. -/
theorem C4_distances_amended_witness :
    (zoneC4 = MapGenerator.generate actX 1 { exploration := tuneC4 }
      { depth := 1 } envX zeroStream) ∧
    (∀ nd ∈ zoneC4.resourceNodes,
      ¬ hypotLt (nd.x - zoneC4.spawn.x) (nd.y - zoneC4.spawn.y) 300 ∧
      ¬ hypotLt (nd.x - zoneC4.exitPt.x) (nd.y - zoneC4.exitPt.y) 200) :=
  ⟨rfl, (C4_distances_amended {} ["grunt"] 1 600 600 ⟨0, 0⟩ ⟨500, 500⟩
    ⟨zeroStream, 0⟩ actX 1 { exploration := tuneC4 } { depth := 1 } envX
    zeroStream zoneC4 rfl).2⟩

/-- C8 (amended): `remove` of a never-inserted entity (no recorded cell
list) is a no-op, and `update` of such an entity is NOT a no-op — it
equals a plain `insert` (the code defines `update = remove ; insert`
unconditionally). -/
theorem C8_remove_noop_amended (g : Grid) (e : Entity)
    (h : g.entityCells e = none) :
    SpatialHash.remove g e = g ∧
    SpatialHash.update g e = SpatialHash.insert g e := by
  have hr : SpatialHash.remove g e = g := by
    unfold SpatialHash.remove
    rw [h]
  exact ⟨hr, by unfold SpatialHash.update; rw [hr]⟩

/-- C8 counterexample: updating a never-inserted entity on a fresh grid
changes the grid (the entity gets registered), so `update` is not a no-op
as the claim states. -/
theorem C8_counterexample :
    SpatialHash.update (SpatialHash.create 128) entA ≠
      SpatialHash.create 128 := by
  intro hEq
  have h2 := congrArg (fun gr => gr.entityCells entA) hEq
  simp [SpatialHash.update, SpatialHash.remove, SpatialHash.insert,
    SpatialHash.create] at h2

/-- C8 witness: the no-op half, on a fresh grid. -/
theorem C8_remove_noop_amended_witness :
    (SpatialHash.create 128).entityCells entA = none ∧
    SpatialHash.remove (SpatialHash.create 128) entA =
      SpatialHash.create 128 :=
  ⟨rfl, (C8_remove_noop_amended (SpatialHash.create 128) entA rfl).1⟩

theorem gridExt (a b : Grid) (h1 : a.cellSize = b.cellSize)
    (h2 : ∀ k, a.cells k = b.cells k)
    (h3 : ∀ e, a.entityCells e = b.entityCells e) : a = b := by
  obtain ⟨csa, ca, eca⟩ := a
  obtain ⟨csb, cb, ecb⟩ := b
  simp only [Grid.mk.injEq]
  exact ⟨h1, funext h2, funext h3⟩

/-- C9: for a grid not containing `e` (no recorded cell list, present in no
bucket — true of every reachable state), `insert` then `remove` of `e`
restores the grid exactly; and `update` literally equals `remove` followed
by `insert` for every grid and entity. -/
theorem C9_insert_remove_restores (g : Grid) (e : Entity)
    (hec : g.entityCells e = none) (hcells : ∀ k, e ∉ g.cells k) :
    SpatialHash.remove (SpatialHash.insert g e) e = g ∧
    ∀ (g' : Grid) (e' : Entity),
      SpatialHash.update g' e' =
        SpatialHash.insert (SpatialHash.remove g' e') e' := by
  refine ⟨?_, fun g' e' => rfl⟩
  have h1 : (SpatialHash.insert g e).entityCells e =
      some (keysOf g.cellSize e) := by
    simp [SpatialHash.insert]
  apply gridExt
  · simp [SpatialHash.remove, h1, SpatialHash.insert]
  · intro k
    simp only [SpatialHash.remove, h1, SpatialHash.insert, reduceIte]
    by_cases hk : k ∈ keysOf g.cellSize e
    · simp only [if_pos hk]
      exact Finset.erase_insert (hcells k)
    · simp only [if_neg hk]
  · intro e'
    by_cases he : e' = e
    · subst he
      simp [SpatialHash.remove, h1, hec, SpatialHash.insert]
    · simp [SpatialHash.remove, h1, SpatialHash.insert, he]

/-- C9 witness: on a fresh grid (which contains nothing), with both
hypotheses discharged definitionally. -/
theorem C9_insert_remove_restores_witness :
    ((SpatialHash.create 128).entityCells entA = none) ∧
    SpatialHash.remove (SpatialHash.insert (SpatialHash.create 128) entA)
        entA = SpatialHash.create 128 :=
  ⟨rfl, (C9_insert_remove_restores (SpatialHash.create 128) entA rfl
      (fun k => by simp [SpatialHash.create])).1⟩

theorem intR_le_bound (a b : ℚ) (g : Rng) (h0 : 0 ≤ g.stream g.k)
    (h1 : g.stream g.k < 1) :
    (Rng.intR a b g).1 ≤ intRBound a b := by
  unfold Rng.intR Rng.next intRBound
  simp only []
  apply Int.floor_le_floor
  rcases le_or_lt 0 (b - a + 1) with hM | hM
  · nlinarith [le_max_right (0 : ℚ) (b - a + 1)]
  · nlinarith [le_max_left (0 : ℚ) (b - a + 1)]

theorem foldl_add_shift (f : PacksMember → ℤ) :
    ∀ (l : List PacksMember) (z : ℤ),
      l.foldl (fun s mm => s + f mm) z = z + l.foldl (fun s mm => s + f mm) 0
  | [], z => by simp
  | mm :: rest, z => by
    simp only [List.foldl_cons]
    rw [foldl_add_shift f rest (z + f mm), foldl_add_shift f rest (0 + f mm)]
    ring

theorem foldl_max_init (f : PackTemplate → ℤ) :
    ∀ (l : List PackTemplate) (b : ℤ),
      b ≤ l.foldl (fun acc t => max acc (f t)) b
  | [], b => le_refl b
  | t :: rest, b => by
    simp only [List.foldl_cons]
    exact le_trans (le_max_left b (f t)) (foldl_max_init f rest _)

theorem foldl_max_mem (f : PackTemplate → ℤ) :
    ∀ (l : List PackTemplate) (b : ℤ) (t : PackTemplate), t ∈ l →
      f t ≤ l.foldl (fun acc t => max acc (f t)) b
  | [], _, _, ht => absurd ht (List.not_mem_nil _)
  | x :: rest, b, t, ht => by
    simp only [List.foldl_cons]
    rcases List.mem_cons.mp ht with rfl | ht
    · exact le_trans (le_max_right b (f t)) (foldl_max_init f rest _)
    · exact foldl_max_mem f rest _ t ht

theorem buildMembers_stream :
    ∀ (ms : List PacksMember) (acc : List String) (g : Rng),
      ((buildMembers ms acc g).2).stream = g.stream
  | [], acc, g => rfl
  | mm :: rest, acc, g => by
    simp only [buildMembers]
    rw [buildMembers_stream rest]
    rfl

theorem buildMembers_le :
    ∀ (ms : List PacksMember) (acc : List String) (g : Rng),
      StreamOK g.stream →
      (((buildMembers ms acc g).1).length : ℤ) ≤
        acc.length + ms.foldl (fun s mm => s + memberBound mm) 0
  | [], acc, g, _ => by simp [buildMembers]
  | mm :: rest, acc, g, hs => by
    simp only [buildMembers, List.foldl_cons]
    have hcnt := intR_le_bound (mm.min.getD 1) (mm.max.getD (mm.min.getD 1)) g
      (hs _).1 (hs _).2
    have hrec := buildMembers_le rest
      (acc ++ List.replicate (Rng.intR (mm.min.getD 1)
        (mm.max.getD (mm.min.getD 1)) g).1.toNat mm.type)
      (Rng.intR (mm.min.getD 1) (mm.max.getD (mm.min.getD 1)) g).2
      (by
        have : ((Rng.intR (mm.min.getD 1) (mm.max.getD (mm.min.getD 1))
            g).2).stream = g.stream := rfl
        rw [this]; exact hs)
    refine le_trans hrec ?_
    rw [foldl_add_shift _ rest (0 + memberBound mm)]
    simp only [List.length_append, List.length_replicate, memberBound]
    omega

theorem weightedTplGo_mem :
    ∀ (ts : List PackTemplate) (r : ℚ) (t : PackTemplate),
      weightedTplGo ts r = some t → t ∈ ts
  | [], r, t, h => by simp [weightedTplGo] at h
  | x :: rest, r, t, h => by
    simp only [weightedTplGo] at h
    split_ifs at h with hc
    · simp only [Option.some.injEq] at h
      subst h
      exact List.mem_cons_self _ _
    · exact List.mem_cons_of_mem _ (weightedTplGo_mem rest _ t h)

theorem pickTemplate_mem (ts : List PackTemplate) (g : Rng) (hne : ts ≠ []) :
    (pickTemplate ts g).1 ∈ ts := by
  have key : ∀ (o : Option PackTemplate), (∀ t, o = some t → t ∈ ts) →
      o.getD (ts.getD 0 {}) ∈ ts := by
    intro o ho
    cases o with
    | none =>
      simp only [Option.getD_none]
      cases ts with
      | nil => exact absurd rfl hne
      | cons x rest => exact List.mem_cons_self _ _
    | some t => exact ho t rfl
  exact key _ (fun t ht => weightedTplGo_mem ts _ t ht)

theorem consumeGo_subset (size : ℤ) :
    ∀ (l : List ℕ) (used : Finset ℕ) (c : ℤ), used ⊆ consumeGo size l used c
  | [], used, c => le_refl used
  | j :: rest, used, c => by
    simp only [consumeGo]
    split_ifs with h1 h2
    · exact consumeGo_subset size rest used c
    · exact subset_trans (Finset.subset_insert j used)
        (consumeGo_subset size rest _ _)
    · exact le_refl used

theorem consumeGo_mem (size : ℤ) :
    ∀ (l : List ℕ) (used : Finset ℕ) (c : ℤ) (x : ℕ),
      x ∈ consumeGo size l used c → x ∈ used ∨ x ∈ l
  | [], used, c, x, hx => Or.inl hx
  | j :: rest, used, c, x, hx => by
    simp only [consumeGo] at hx
    split_ifs at hx with h1 h2
    · rcases consumeGo_mem size rest used c x hx with h | h
      · exact Or.inl h
      · exact Or.inr (List.mem_cons_of_mem _ h)
    · rcases consumeGo_mem size rest _ _ x hx with h | h
      · rcases Finset.mem_insert.mp h with rfl | h
        · exact Or.inr (List.mem_cons_self _ _)
        · exact Or.inl h
      · exact Or.inr (List.mem_cons_of_mem _ h)
    · exact Or.inl hx

theorem packMemberGo_len_stream (env : MathEnv) (anchor : EnemySpawn)
    (spacing : ℚ) (memberTypes : Option (List String)) (tplTypes : List String)
    (pool : List String) (packId : String) :
    ∀ (fuel : ℕ) (m : ℕ) (acc : List EnemySpawn) (g : Rng),
      ((packMemberGo env anchor spacing memberTypes tplTypes pool packId fuel m
          acc g).1).length = acc.length + fuel ∧
      ((packMemberGo env anchor spacing memberTypes tplTypes pool packId fuel m
          acc g).2).stream = g.stream := by
  intro fuel
  induction fuel with
  | zero => intro m acc g; simp [packMemberGo]
  | succ n ih =>
    intro m acc g
    simp only [packMemberGo]
    rcases memberTypes with _ | mts
    all_goals split_ifs
    all_goals refine ⟨?_, ?_⟩
    all_goals
      first
        | (rw [(ih _ _ _).1]; simp; omega)
        | (rw [(ih _ _ _).2]; rfl)

theorem shuffleGo_stream :
    ∀ (i : ℕ) (l : List ℕ) (g : Rng), ((shuffleGo i l g).2).stream = g.stream
  | 0, l, g => rfl
  | i + 1, l, g => by
    simp only [shuffleGo]
    exact shuffleGo_stream i _ _

theorem shuffleGo_nil : ∀ (i : ℕ) (g : Rng), (shuffleGo i [] g).1 = []
  | 0, g => rfl
  | i + 1, g => by
    simp only [shuffleGo]
    split_ifs <;> exact shuffleGo_nil i _

theorem getD_mem_or : ∀ (l : List ℕ) (i : ℕ), l.getD i 0 ∈ l ∨ l.getD i 0 = 0
  | [], i => Or.inr rfl
  | x :: t, 0 => Or.inl (List.mem_cons_self _ _)
  | x :: t, i + 1 => by
    simp only [List.getD_cons_succ]
    rcases getD_mem_or t i with h | h
    · exact Or.inl (List.mem_cons_of_mem _ h)
    · exact Or.inr h

theorem listSwap_mem (l : List ℕ) (i j : ℕ) (x : ℕ) (hx : x ∈ listSwap l i j) :
    x ∈ l ∨ x = 0 := by
  unfold listSwap at hx
  rcases List.mem_or_eq_of_mem_set hx with h | rfl
  · rcases List.mem_or_eq_of_mem_set h with h' | rfl
    · exact Or.inl h'
    · exact getD_mem_or l j
  · exact getD_mem_or l i

theorem shuffleGo_mem :
    ∀ (i : ℕ) (l : List ℕ) (g : Rng) (x : ℕ),
      x ∈ (shuffleGo i l g).1 → x ∈ l ∨ x = 0
  | 0, l, g, x, hx => Or.inl hx
  | i + 1, l, g, x, hx => by
    simp only [shuffleGo] at hx
    rcases shuffleGo_mem i _ _ x hx with h | h
    · split_ifs at h with hc
      · exact listSwap_mem l (i + 1) _ x h
      · exact Or.inl h
    · exact Or.inr h

theorem packGo_bound (spawns : List EnemySpawn) (pool : List String)
    (spawnPt exitPt : Pt) (pd : PacksData) (env : MathEnv)
    (packChance maxPacks spacing mdSpawn mdExit : ℚ)
    (hneT : pd.templates ≠ []) :
    ∀ (l : List ℕ) (used : Finset ℕ) (out : List EnemySpawn) (made : ℕ)
      (g : Rng), StreamOK g.stream →
      PackInv spawns pool spawnPt exitPt pd env packChance
        (pd.packSizeMin.getD 3) (pd.packSizeMax.getD 5) maxPacks spacing
        mdSpawn mdExit l used out made g := by
  intro l
  induction l with
  | nil =>
    intro used out made g hOK
    simp only [PackInv, packGo]
    exact ⟨subset_refl _, fun x hx => Or.inl hx, le_refl _, le_max_left _ _,
      by simp, by simp, trivial⟩
  | cons i rest ih =>
    intro used out made g hOK
    simp only [PackInv, packGo]
    by_cases hm : (made : ℚ) < maxPacks
    · rw [if_neg (not_not_intro hm)]
      by_cases hi : i ∈ used
      · rw [if_pos hi]
        have IH := ih used out made g hOK
        simp only [PackInv] at IH
        obtain ⟨ih1, ih2, ih3, ih4, ih5, ih6, ih7⟩ := IH
        exact ⟨ih1, fun x hx => (ih2 x hx).imp id (List.mem_cons_of_mem i),
          ih3, ih4, ih5, ih6, ih7⟩
      · rw [if_neg hi]
        rcases hsp : spawns.get? i with _ | anchor
        · simp only [hsp]
          have IH := ih used out made g hOK
          simp only [PackInv] at IH
          obtain ⟨ih1, ih2, ih3, ih4, ih5, ih6, ih7⟩ := IH
          exact ⟨ih1, fun x hx => (ih2 x hx).imp id (List.mem_cons_of_mem i),
            ih3, ih4, ih5, ih6, ih7⟩
        · simp only [hsp]
          by_cases hd : hypotLt (anchor.x - spawnPt.x) (anchor.y - spawnPt.y)
              mdSpawn ∨
              hypotLt (anchor.x - exitPt.x) (anchor.y - exitPt.y) mdExit
          · rw [if_pos hd]
            have IH := ih used out made g hOK
            simp only [PackInv] at IH
            obtain ⟨ih1, ih2, ih3, ih4, ih5, ih6, ih7⟩ := IH
            exact ⟨ih1, fun x hx => (ih2 x hx).imp id (List.mem_cons_of_mem i),
              ih3, ih4, ih5, ih6, ih7⟩
          · rw [if_neg hd]
            by_cases hu : (Rng.rangeQ 0 1 g).1 > packChance
            · rw [if_pos hu]
              have IH := ih used out made (Rng.rangeQ 0 1 g).2 hOK
              simp only [PackInv] at IH
              obtain ⟨ih1, ih2, ih3, ih4, ih5, ih6, ih7⟩ := IH
              exact ⟨ih1, fun x hx => (ih2 x hx).imp id (List.mem_cons_of_mem i),
                ih3, ih4, ih5, ih6, ih7⟩
            · rw [if_neg hu]
              have hceil : (made : ℤ) < ⌈maxPacks⌉ :=
                Int.lt_ceil.mpr (by push_cast; exact hm)
              have step : ∀ (sizeZ : ℤ) (mt : Option (List String))
                  (tt : List String) (pid : String) (g4 : Rng),
                  sizeZ ≤ packSizeBound pd → g4.stream = g.stream →
                  used ⊆ (packGo spawns pool spawnPt exitPt pd env packChance
                    (pd.packSizeMin.getD 3) (pd.packSizeMax.getD 5) maxPacks
                    spacing mdSpawn mdExit rest
                    (consumeGo sizeZ rest (Insert.insert i used) 1)
                    (out ++ (packMemberGo env anchor spacing mt tt pool pid
                      sizeZ.toNat 0 [] g4).1) (made + 1)
                    (packMemberGo env anchor spacing mt tt pool pid
                      sizeZ.toNat 0 [] g4).2).1 ∧
                  (∀ x ∈ (packGo spawns pool spawnPt exitPt pd env packChance
                    (pd.packSizeMin.getD 3) (pd.packSizeMax.getD 5) maxPacks
                    spacing mdSpawn mdExit rest
                    (consumeGo sizeZ rest (Insert.insert i used) 1)
                    (out ++ (packMemberGo env anchor spacing mt tt pool pid
                      sizeZ.toNat 0 [] g4).1) (made + 1)
                    (packMemberGo env anchor spacing mt tt pool pid
                      sizeZ.toNat 0 [] g4).2).1, x ∈ used ∨ x ∈ i :: rest) ∧
                  made ≤ (packGo spawns pool spawnPt exitPt pd env packChance
                    (pd.packSizeMin.getD 3) (pd.packSizeMax.getD 5) maxPacks
                    spacing mdSpawn mdExit rest
                    (consumeGo sizeZ rest (Insert.insert i used) 1)
                    (out ++ (packMemberGo env anchor spacing mt tt pool pid
                      sizeZ.toNat 0 [] g4).1) (made + 1)
                    (packMemberGo env anchor spacing mt tt pool pid
                      sizeZ.toNat 0 [] g4).2).2.2.1 ∧
                  (((packGo spawns pool spawnPt exitPt pd env packChance
                    (pd.packSizeMin.getD 3) (pd.packSizeMax.getD 5) maxPacks
                    spacing mdSpawn mdExit rest
                    (consumeGo sizeZ rest (Insert.insert i used) 1)
                    (out ++ (packMemberGo env anchor spacing mt tt pool pid
                      sizeZ.toNat 0 [] g4).1) (made + 1)
                    (packMemberGo env anchor spacing mt tt pool pid
                      sizeZ.toNat 0 [] g4).2).2.2.1 : ℤ) ≤
                    max (made : ℤ) ⌈maxPacks⌉) ∧
                  ((((packGo spawns pool spawnPt exitPt pd env packChance
                    (pd.packSizeMin.getD 3) (pd.packSizeMax.getD 5) maxPacks
                    spacing mdSpawn mdExit rest
                    (consumeGo sizeZ rest (Insert.insert i used) 1)
                    (out ++ (packMemberGo env anchor spacing mt tt pool pid
                      sizeZ.toNat 0 [] g4).1) (made + 1)
                    (packMemberGo env anchor spacing mt tt pool pid
                      sizeZ.toNat 0 [] g4).2).2.1).length : ℤ) ≤
                    (out.length : ℤ) +
                    (((packGo spawns pool spawnPt exitPt pd env packChance
                      (pd.packSizeMin.getD 3) (pd.packSizeMax.getD 5) maxPacks
                      spacing mdSpawn mdExit rest
                      (consumeGo sizeZ rest (Insert.insert i used) 1)
                      (out ++ (packMemberGo env anchor spacing mt tt pool pid
                        sizeZ.toNat 0 [] g4).1) (made + 1)
                      (packMemberGo env anchor spacing mt tt pool pid
                        sizeZ.toNat 0 [] g4).2).2.2.1 : ℤ) - (made : ℤ)) *
                      max 0 (packSizeBound pd)) ∧
                  (((used.card : ℤ)) +
                    (((packGo spawns pool spawnPt exitPt pd env packChance
                      (pd.packSizeMin.getD 3) (pd.packSizeMax.getD 5) maxPacks
                      spacing mdSpawn mdExit rest
                      (consumeGo sizeZ rest (Insert.insert i used) 1)
                      (out ++ (packMemberGo env anchor spacing mt tt pool pid
                        sizeZ.toNat 0 [] g4).1) (made + 1)
                      (packMemberGo env anchor spacing mt tt pool pid
                        sizeZ.toNat 0 [] g4).2).2.2.1 : ℤ) - (made : ℤ)) ≤
                    ((packGo spawns pool spawnPt exitPt pd env packChance
                      (pd.packSizeMin.getD 3) (pd.packSizeMax.getD 5) maxPacks
                      spacing mdSpawn mdExit rest
                      (consumeGo sizeZ rest (Insert.insert i used) 1)
                      (out ++ (packMemberGo env anchor spacing mt tt pool pid
                        sizeZ.toNat 0 [] g4).1) (made + 1)
                      (packMemberGo env anchor spacing mt tt pool pid
                        sizeZ.toNat 0 [] g4).2).1.card : ℤ)) ∧
                  ((packGo spawns pool spawnPt exitPt pd env packChance
                    (pd.packSizeMin.getD 3) (pd.packSizeMax.getD 5) maxPacks
                    spacing mdSpawn mdExit rest
                    (consumeGo sizeZ rest (Insert.insert i used) 1)
                    (out ++ (packMemberGo env anchor spacing mt tt pool pid
                      sizeZ.toNat 0 [] g4).1) (made + 1)
                    (packMemberGo env anchor spacing mt tt pool pid
                      sizeZ.toNat 0 [] g4).2).2.2.2).stream = g.stream := by
                intro sizeZ mt tt pid g4 hsize hg4
                have hOK4 : StreamOK g4.stream := by rw [hg4]; exact hOK
                have hpm := packMemberGo_len_stream env anchor spacing mt tt
                  pool pid sizeZ.toNat 0 [] g4
                have hOK5 : StreamOK ((packMemberGo env anchor spacing mt tt
                    pool pid sizeZ.toNat 0 [] g4).2).stream := by
                  rw [hpm.2]; exact hOK4
                have IH := ih (consumeGo sizeZ rest (Insert.insert i used) 1)
                  (out ++ (packMemberGo env anchor spacing mt tt pool pid
                    sizeZ.toNat 0 [] g4).1) (made + 1)
                  (packMemberGo env anchor spacing mt tt pool pid
                    sizeZ.toNat 0 [] g4).2 hOK5
                simp only [PackInv] at IH
                obtain ⟨ih1, ih2, ih3, ih4, ih5, ih6, ih7⟩ := IH
                have hMle : (((packMemberGo env anchor spacing mt tt pool pid
                    sizeZ.toNat 0 [] g4).1).length : ℤ) ≤
                    max 0 (packSizeBound pd) := by
                  rw [hpm.1]
                  simp only [List.length_nil]
                  omega
                refine ⟨?_, ?_, ?_, ?_, ?_, ?_, ?_⟩
                · exact subset_trans (subset_trans (Finset.subset_insert i used)
                    (consumeGo_subset _ _ _ _)) ih1
                · intro x hx
                  rcases ih2 x hx with h | h
                  · rcases consumeGo_mem sizeZ rest (Insert.insert i used) 1 x h
                        with h' | h'
                    · rcases Finset.mem_insert.mp h' with rfl | h''
                      · exact Or.inr (List.mem_cons_self _ _)
                      · exact Or.inl h''
                    · exact Or.inr (List.mem_cons_of_mem _ h')
                  · exact Or.inr (List.mem_cons_of_mem _ h)
                · exact le_trans (Nat.le_succ made) ih3
                · omega
                · have happ : (((out ++ (packMemberGo env anchor spacing mt tt
                      pool pid sizeZ.toNat 0 [] g4).1).length : ℤ)) =
                      (out.length : ℤ) + (((packMemberGo env anchor spacing mt
                        tt pool pid sizeZ.toNat 0 [] g4).1).length : ℤ) := by
                    rw [List.length_append]; push_cast; ring
                  rw [happ] at ih5
                  push_cast at ih5 ⊢
                  linarith [ih5, hMle]
                · have hcard1 : (Insert.insert i used).card = used.card + 1 :=
                    Finset.card_insert_of_not_mem hi
                  have hcard2 : (Insert.insert i used).card ≤
                      (consumeGo sizeZ rest (Insert.insert i used) 1).card :=
                    Finset.card_le_card (consumeGo_subset _ _ _ _)
                  omega
                · rw [ih7, hpm.2]
                  exact hg4
              rcases htm : (pickTemplate pd.templates
                  (Rng.rangeQ 0 1 g).2).1.members with _ | ms
              · simp only [htm]
                refine step _ _ _ _ _ ?_ ?_
                · refine le_trans (intR_le_bound _ _ _ (hOK _).1 (hOK _).2) ?_
                  unfold packSizeBound
                  exact foldl_max_init _ _ _
                · rfl
              · simp only [htm]
                split_ifs with hms hb
                · refine step _ _ _ _ _ ?_ ?_
                  · have hbs : ((buildMembers ms [] (pickTemplate pd.templates
                        (Rng.rangeQ 0 1 g).2).2).2).stream = g.stream :=
                      buildMembers_stream ms [] _
                    refine le_trans (intR_le_bound _ _ _ ?_ ?_) ?_
                    · rw [hbs]; exact (hOK _).1
                    · rw [hbs]; exact (hOK _).2
                    · unfold packSizeBound
                      exact foldl_max_init _ _ _
                  · exact buildMembers_stream ms [] _
                · refine step _ _ _ _ _ ?_ ?_
                  · have hb1 := buildMembers_le ms [] (pickTemplate pd.templates
                      (Rng.rangeQ 0 1 g).2).2 hOK
                    simp only [List.length_nil, Nat.cast_zero, zero_add] at hb1
                    have htb : ms.foldl (fun s mm => s + memberBound mm) 0 ≤
                        tplBound (pd.packSizeMin.getD 3) (pd.packSizeMax.getD 5)
                          (pickTemplate pd.templates (Rng.rangeQ 0 1 g).2).1 := by
                      unfold tplBound
                      simp only [htm]
                      rw [if_pos hms]
                      exact le_max_left _ _
                    have hpt : tplBound (pd.packSizeMin.getD 3)
                        (pd.packSizeMax.getD 5)
                        (pickTemplate pd.templates (Rng.rangeQ 0 1 g).2).1 ≤
                        packSizeBound pd := by
                      unfold packSizeBound
                      exact foldl_max_mem _ _ _ _ (pickTemplate_mem _ _ hneT)
                    exact le_trans hb1 (le_trans htb hpt)
                  · exact buildMembers_stream ms [] _
                · refine step _ _ _ _ _ ?_ ?_
                  · refine le_trans (intR_le_bound _ _ _ (hOK _).1 (hOK _).2) ?_
                    unfold packSizeBound
                    exact foldl_max_init _ _ _
                  · rfl
    · rw [if_pos hm]
      exact ⟨subset_refl _, fun x hx => Or.inl hx, le_refl _, le_max_left _ _,
        by simp, by simp, rfl⟩

theorem filterMap_length_le_countP {α : Type} (f : ℕ → Option α) (p : ℕ → Bool)
    (hp : ∀ i, (f i).isSome → p i) :
    ∀ l : List ℕ, (l.filterMap f).length ≤ l.countP p
  | [] => le_refl 0
  | i :: t => by
    rcases hf : f i with _ | v
    · rw [List.filterMap_cons_none hf, List.countP_cons]
      have := filterMap_length_le_countP f p hp t
      split_ifs <;> omega
    · have hpi : p i = true := hp i (by rw [hf]; rfl)
      rw [List.filterMap_cons_some hf, List.countP_cons, List.length_cons]
      have := filterMap_length_le_countP f p hp t
      simp only [hpi, if_true]
      omega

theorem countP_not_add (p : ℕ → Bool) :
    ∀ l : List ℕ, l.countP p + l.countP (fun a => !(p a)) = l.length
  | [] => rfl
  | x :: t => by
    rw [List.countP_cons, List.countP_cons, List.length_cons]
    have := countP_not_add p t
    cases hpx : p x <;> simp [hpx] <;> omega

theorem countP_mem_card (used : Finset ℕ) (n : ℕ) (hsub : ∀ x ∈ used, x < n) :
    (List.range n).countP (fun i => decide (i ∈ used)) = used.card := by
  rw [List.countP_eq_length_filter]
  have hnd : ((List.range n).filter (fun i => decide (i ∈ used))).Nodup :=
    (List.nodup_range n).filter _
  rw [← List.toFinset_card_of_nodup hnd]
  congr 1
  apply Finset.ext
  intro x
  simp only [List.mem_toFinset, List.mem_filter, List.mem_range,
    decide_eq_true_eq]
  exact ⟨fun h => h.2, fun h => ⟨hsub x h, h⟩⟩

theorem singles_length_le (spawns : List EnemySpawn) (used : Finset ℕ) (n : ℕ)
    (hsub : ∀ x ∈ used, x < n) :
    ((List.range n).filterMap
        (fun i => if i ∈ used then none else spawns.get? i)).length +
      used.card ≤ n := by
  have h1 := filterMap_length_le_countP
    (fun i => if i ∈ used then none else spawns.get? i)
    (fun a => !(decide (a ∈ used))) ?_ (List.range n)
  · have hsplit := countP_not_add (fun a => decide (a ∈ used)) (List.range n)
    simp only [] at hsplit
    rw [List.length_range, countP_mem_card used n hsub] at hsplit
    omega
  · intro i hi
    simp only [] at hi
    by_cases h : i ∈ used
    · rw [if_pos h] at hi
      exact absurd hi (by simp)
    · simp [h]

/-- C5: the claim that `applyPackDirector` never returns more spawns than it
was given is false (see `C5_counterexample`): a starved pack — `size`
rolled larger than the remaining free indices — adds `size` members while
consuming fewer slots.  Amended bound: with no pack table the list is
returned unchanged, and with a pack table the output exceeds the input by
at most `maxPacksPerZone` times (largest rollable pack size − 1). -/
theorem C5_pack_budget_amended (pd : PacksData) (spawns : List EnemySpawn)
    (pool : List String) (spawnPt exitPt : Pt) (env : MathEnv) (g : Rng)
    (hOK : StreamOK g.stream) :
    applyPackDirector none spawns pool spawnPt exitPt env g = (spawns, g) ∧
    (((applyPackDirector (some pd) spawns pool spawnPt exitPt env
        g).1).length : ℤ) ≤
      (spawns.length : ℤ) +
        max 0 ⌈pd.maxPacksPerZone.getD 6⌉ *
          max 0 (max 0 (packSizeBound pd) - 1) := by
  refine ⟨rfl, ?_⟩
  have hMK : (0 : ℤ) ≤ max 0 ⌈pd.maxPacksPerZone.getD 6⌉ *
      max 0 (max 0 (packSizeBound pd) - 1) :=
    mul_nonneg (le_max_left _ _) (le_max_left _ _)
  by_cases hn0 : spawns.length = 0
  · obtain rfl : spawns = [] := List.length_eq_zero.mp hn0
    simp only [applyPackDirector]
    split_ifs
    · simpa using hMK
    · simpa using hMK
    · simpa [shuffleGo, packGo] using hMK
  · have hnpos : 0 < spawns.length := Nat.pos_of_ne_zero hn0
    simp only [applyPackDirector]
    split_ifs with ht hsm
    · linarith [hMK]
    · linarith [hMK]
    · have hOKI : StreamOK ((shuffleGo (spawns.length - 1)
          (List.range spawns.length) g).2).stream := by
        rw [shuffleGo_stream]; exact hOK
      have hinv := packGo_bound spawns pool spawnPt exitPt pd env
        (pd.packChance.getD 0.7) (pd.maxPacksPerZone.getD 6)
        (pd.memberSpacing.getD 120) (pd.minDistFromSpawn.getD 350)
        (pd.minDistFromExit.getD 250) ht
        ((shuffleGo (spawns.length - 1) (List.range spawns.length) g).1) ∅ [] 0
        ((shuffleGo (spawns.length - 1) (List.range spawns.length) g).2) hOKI
      simp only [PackInv] at hinv
      obtain ⟨h1, h2, h3, h4, h5, h6, h7⟩ := hinv
      set PR := packGo spawns pool spawnPt exitPt pd env
        (pd.packChance.getD 0.7) (pd.packSizeMin.getD 3)
        (pd.packSizeMax.getD 5) (pd.maxPacksPerZone.getD 6)
        (pd.memberSpacing.getD 120) (pd.minDistFromSpawn.getD 350)
        (pd.minDistFromExit.getD 250)
        ((shuffleGo (spawns.length - 1) (List.range spawns.length) g).1) ∅ [] 0
        ((shuffleGo (spawns.length - 1) (List.range spawns.length) g).2)
      have hmem : ∀ x ∈ PR.1, x < spawns.length := by
        intro x hx
        rcases h2 x hx with h | h
        · exact absurd h (Finset.not_mem_empty x)
        · rcases shuffleGo_mem _ _ _ x h with h' | h'
          · exact List.mem_range.mp h'
          · exact h' ▸ hnpos
      have hsingle := singles_length_le spawns PR.1 spawns.length hmem
      zify at hsingle
      simp only [List.length_nil, Finset.card_empty, Nat.cast_zero, zero_add,
        sub_zero] at h4 h5 h6
      have hmk0 : (0 : ℤ) ≤ (PR.2.2.1 : ℤ) := Nat.cast_nonneg _
      have key : (PR.2.2.1 : ℤ) * (max 0 (packSizeBound pd) - 1) ≤
          max 0 ⌈pd.maxPacksPerZone.getD 6⌉ *
            max 0 (max 0 (packSizeBound pd) - 1) := by
        rcases le_or_lt 1 (max 0 (packSizeBound pd)) with hB | hB
        · have h1' : max 0 (max 0 (packSizeBound pd) - 1) =
              max 0 (packSizeBound pd) - 1 := max_eq_right (by omega)
          rw [h1']
          exact mul_le_mul_of_nonneg_right h4 (by omega)
        · have hBz : max 0 (packSizeBound pd) = 0 := by omega
          rw [hBz, show max (0:ℤ) (0 - 1) = 0 from by omega, mul_zero,
            show ((0:ℤ) - 1) = -1 from by omega, mul_neg_one]
          exact neg_nonpos.mpr hmk0
      rw [List.length_append]
      push_cast
      linarith [h5, h6, key, hsingle]

/-- C5 counterexample: three far-away spawns, one all-default template.  The
first anchor rolls pack size 5 (draw 4 of the stream is 0.7, and
`int(3,5)` maps it to 5), far more than the 2 remaining slots: the pack
director returns 5 spawns for an input of 3. -/
theorem C5_counterexample : outC5.length = 5 ∧ spawnsC5.length = 3 := by
  refine ⟨?_, ?_⟩
  · with_unfolding_all decide
  · with_unfolding_all decide

/-- C5 witness: the amended bound instantiated on the counterexample's
input (`5 ≤ 3 + 6·4` there), with the stream-contract hypothesis
discharged on the all-zero stream. -/
theorem C5_pack_budget_amended_witness :
    StreamOK zeroStream ∧
    (((applyPackDirector (some packsC5) spawnsC5 ["grunt"] ⟨0, 0⟩ ⟨1000, 1000⟩
        envX ⟨zeroStream, 0⟩).1).length : ℤ) ≤
      (spawnsC5.length : ℤ) +
        max 0 ⌈packsC5.maxPacksPerZone.getD 6⌉ *
          max 0 (max 0 (packSizeBound packsC5) - 1) :=
  ⟨fun n => ⟨by norm_num [zeroStream], by norm_num [zeroStream]⟩,
    (C5_pack_budget_amended packsC5 spawnsC5 ["grunt"] ⟨0, 0⟩ ⟨1000, 1000⟩
      envX ⟨zeroStream, 0⟩
      (fun n => ⟨by norm_num [zeroStream], by norm_num [zeroStream]⟩)).2⟩

theorem ins_facts (e : Entity) (h : 0 ≤ e.qRadius) :
    e.qRadius ≤ e.insRadius ∧ 0 ≤ e.insRadius := by
  obtain ⟨i, ex, ey, ra, sz, rr⟩ := e
  rcases ra with _ | a <;> rcases sz with _ | b <;> rcases rr with _ | c <;>
    simp only [Entity.qRadius, Entity.insRadius, jsOr] at h ⊢ <;>
    (try split_ifs at h ⊢) <;>
    exact ⟨by linarith, by linarith⟩

theorem mem_keysOf (cs : ℚ) (e : Entity) (k : ℕ) :
    k ∈ keysOf cs e ↔ ∃ cx cy : ℤ,
      ⌊(e.x - e.insRadius) * (1 / cs)⌋ ≤ cx ∧
      cx ≤ ⌊(e.x + e.insRadius) * (1 / cs)⌋ ∧
      ⌊(e.y - e.insRadius) * (1 / cs)⌋ ≤ cy ∧
      cy ≤ ⌊(e.y + e.insRadius) * (1 / cs)⌋ ∧
      k = cellKey cx cy := by
  unfold keysOf
  simp only [List.mem_flatMap, List.mem_map, List.mem_range]
  constructor
  · rintro ⟨i, hi, j, hj, hk⟩
    exact ⟨⌊(e.x - e.insRadius) * (1 / cs)⌋ + i,
      ⌊(e.y - e.insRadius) * (1 / cs)⌋ + j,
      by omega, by omega, by omega, by omega, hk.symm⟩
  · rintro ⟨cx, cy, h1, h2, h3, h4, rfl⟩
    refine ⟨(cx - ⌊(e.x - e.insRadius) * (1 / cs)⌋).toNat, by omega,
      (cy - ⌊(e.y - e.insRadius) * (1 / cs)⌋).toNat, by omega, ?_⟩
    rw [show ⌊(e.x - e.insRadius) * (1 / cs)⌋ +
        ((cx - ⌊(e.x - e.insRadius) * (1 / cs)⌋).toNat : ℤ) = cx from by omega,
      show ⌊(e.y - e.insRadius) * (1 / cs)⌋ +
        ((cy - ⌊(e.y - e.insRadius) * (1 / cs)⌋).toNat : ℤ) = cy from by omega]

theorem insertAll_cellSize :
    ∀ (es : List Entity) (g : Grid), (insertAll g es).cellSize = g.cellSize
  | [], g => rfl
  | e :: t, g => by
    simp only [insertAll, List.foldl_cons]
    exact insertAll_cellSize t _

theorem mem_insertAll_cells :
    ∀ (es : List Entity) (g : Grid) (k : ℕ) (e : Entity),
      e ∈ (insertAll g es).cells k ↔
        e ∈ g.cells k ∨ (e ∈ es ∧ k ∈ keysOf g.cellSize e)
  | [], g, k, e => by simp [insertAll]
  | e' :: t, g, k, e => by
    have IH := mem_insertAll_cells t (SpatialHash.insert g e') k e
    simp only [insertAll] at IH ⊢
    rw [List.foldl_cons, IH]
    simp only [SpatialHash.insert]
    by_cases hk : k ∈ keysOf g.cellSize e'
    · rw [if_pos hk]
      constructor
      · rintro (h | ⟨h1, h2⟩)
        · rcases Finset.mem_insert.mp h with rfl | h'
          · exact Or.inr ⟨List.mem_cons_self _ _, hk⟩
          · exact Or.inl h'
        · exact Or.inr ⟨List.mem_cons_of_mem _ h1, h2⟩
      · rintro (h | ⟨h1, h2⟩)
        · exact Or.inl (Finset.mem_insert_of_mem h)
        · rcases List.mem_cons.mp h1 with rfl | h1'
          · exact Or.inl (Finset.mem_insert_self _ _)
          · exact Or.inr ⟨h1', h2⟩
    · rw [if_neg hk]
      constructor
      · rintro (h | ⟨h1, h2⟩)
        · exact Or.inl h
        · exact Or.inr ⟨List.mem_cons_of_mem _ h1, h2⟩
      · rintro (h | ⟨h1, h2⟩)
        · exact Or.inl h
        · rcases List.mem_cons.mp h1 with rfl | h1'
          · exact absurd h2 hk
          · exact Or.inr ⟨h1', h2⟩

theorem mem_query (g : Grid) (x y radius : ℚ) (e : Entity) :
    e ∈ SpatialHash.query g x y radius ↔ ∃ cx cy : ℤ,
      ⌊(x - radius) * g.invCell⌋ ≤ cx ∧ cx ≤ ⌊(x + radius) * g.invCell⌋ ∧
      ⌊(y - radius) * g.invCell⌋ ≤ cy ∧ cy ≤ ⌊(y + radius) * g.invCell⌋ ∧
      e ∈ g.cells (cellKey cx cy) := by
  unfold SpatialHash.query
  simp only [Finset.mem_biUnion, Finset.mem_product, Finset.mem_Icc]
  constructor
  · rintro ⟨⟨cx, cy⟩, ⟨⟨hx1, hx2⟩, hy1, hy2⟩, he⟩
    exact ⟨cx, cy, hx1, hx2, hy1, hy2, he⟩
  · rintro ⟨cx, cy, hx1, hx2, hy1, hy2, he⟩
    exact ⟨(cx, cy), ⟨⟨hx1, hx2⟩, hy1, hy2⟩, he⟩

/-- C3: exactness of `queryCircle` against the brute-force distance filter
fails in general (see `C3_counterexample`: a negative resolved radius makes
`_entityCells` register the entity in no cell, a false negative).  Amended:
for a positive cell size, a nonnegative query radius, and entities whose
resolved radius is nonnegative, `queryCircle` on a grid freshly populated
from a list returns exactly the brute-force scan's set. -/
theorem C3_queryCircle_amended (cs x y radius : ℚ) (es : List Entity)
    (e : Entity) (hcs : 0 < cs) (hr : 0 ≤ radius)
    (hq : ∀ e' ∈ es, 0 ≤ e'.qRadius) :
    e ∈ SpatialHash.queryCircle (insertAll (SpatialHash.create cs) es)
        x y radius ↔
      e ∈ es ∧ withinDist e x y radius := by
  have hcs' : (insertAll (SpatialHash.create cs) es).cellSize = cs := by
    rw [insertAll_cellSize]
    rfl
  have hinv : (insertAll (SpatialHash.create cs) es).invCell = 1 / cs := by
    unfold Grid.invCell
    rw [hcs']
  have hinvpos : (0 : ℚ) ≤ 1 / cs := by positivity
  unfold SpatialHash.queryCircle
  rw [Finset.mem_filter, mem_query, hinv]
  constructor
  · rintro ⟨⟨cx, cy, _, _, _, _, he⟩, hdist⟩
    rw [mem_insertAll_cells] at he
    rcases he with he | ⟨hes, _⟩
    · exact absurd he (by simp [SpatialHash.create])
    · exact ⟨hes, ⟨by linarith [hq e hes], hdist⟩⟩
  · rintro ⟨hes, hwa, hwb⟩
    have hq0 := hq e hes
    obtain ⟨hqi, hi0⟩ := ins_facts e hq0
    have hdx1 : e.x - x ≤ radius + e.qRadius := by
      nlinarith [sq_nonneg (e.y - y)]
    have hdx2 : x - e.x ≤ radius + e.qRadius := by
      nlinarith [sq_nonneg (e.y - y)]
    have hdy1 : e.y - y ≤ radius + e.qRadius := by
      nlinarith [sq_nonneg (e.x - x)]
    have hdy2 : y - e.y ≤ radius + e.qRadius := by
      nlinarith [sq_nonneg (e.x - x)]
    refine ⟨⟨max ⌊(x - radius) * (1 / cs)⌋ ⌊(e.x - e.insRadius) * (1 / cs)⌋,
      max ⌊(y - radius) * (1 / cs)⌋ ⌊(e.y - e.insRadius) * (1 / cs)⌋,
      le_max_left _ _,
      max_le (Int.floor_le_floor (mul_le_mul_of_nonneg_right (by linarith)
          hinvpos))
        (Int.floor_le_floor (mul_le_mul_of_nonneg_right (by linarith)
          hinvpos)),
      le_max_left _ _,
      max_le (Int.floor_le_floor (mul_le_mul_of_nonneg_right (by linarith)
          hinvpos))
        (Int.floor_le_floor (mul_le_mul_of_nonneg_right (by linarith)
          hinvpos)),
      ?_⟩, hwb⟩
    rw [mem_insertAll_cells]
    refine Or.inr ⟨hes, ?_⟩
    refine (mem_keysOf cs e _).mpr
      ⟨max ⌊(x - radius) * (1 / cs)⌋ ⌊(e.x - e.insRadius) * (1 / cs)⌋,
       max ⌊(y - radius) * (1 / cs)⌋ ⌊(e.y - e.insRadius) * (1 / cs)⌋,
       le_max_right _ _,
       max_le (Int.floor_le_floor (mul_le_mul_of_nonneg_right (by linarith)
           hinvpos))
         (Int.floor_le_floor (mul_le_mul_of_nonneg_right (by linarith)
           hinvpos)),
       le_max_right _ _,
       max_le (Int.floor_le_floor (mul_le_mul_of_nonneg_right (by linarith)
           hinvpos))
         (Int.floor_le_floor (mul_le_mul_of_nonneg_right (by linarith)
           hinvpos)),
       rfl⟩

/-- C3 counterexample: `entNeg` has explicit radius `-5`; it passes the
claim's brute-force distance filter for the query at its own position
(`dist = 0 ≤ 10 + (-5)`), yet `_entityCells` computes an empty cell-range
for it (`maxCX < minCX`), so the inserted entity is indexed nowhere and
`queryCircle` misses it: a false negative. -/
theorem C3_counterexample :
    withinDist entNeg 2 2 10 ∧
    entNeg ∉ SpatialHash.queryCircle
      (insertAll (SpatialHash.create 128) [entNeg]) 2 2 10 := by
  refine ⟨?_, ?_⟩
  · with_unfolding_all decide
  · with_unfolding_all decide

/-- C3 witness: the amended equivalence instantiated on a one-entity grid
with all three hypotheses discharged concretely. -/
theorem C3_queryCircle_amended_witness :
    ((0 : ℚ) < 128 ∧ (0 : ℚ) ≤ 10 ∧ (∀ e' ∈ [entA], 0 ≤ e'.qRadius)) ∧
    (entA ∈ SpatialHash.queryCircle
        (insertAll (SpatialHash.create 128) [entA]) 2 2 10 ↔
      entA ∈ [entA] ∧ withinDist entA 2 2 10) :=
  ⟨⟨by norm_num, by norm_num, by with_unfolding_all decide⟩,
    C3_queryCircle_amended 128 2 2 10 [entA] entA (by norm_num) (by norm_num)
      (by with_unfolding_all decide)⟩
